import Mathlib

/-!
# System-call layer of `userprog/syscall.c`

A shallow embedding of the system-call dispatcher and its operations.

* The current thread's fields that `syscall.c` touches form the record `Thread`.
* Every call into a collaborator that lives outside `syscall.c` (file system,
  console, lock primitives, process layer) is appended to `Thread.trace`, in
  program order.  The values those collaborators return are taken from `Env`;
  each of them may depend on the whole history of calls so far.
* Pointers are 32-bit addresses (`Nat`, `0` is `NULL`); `struct file *` values
  are `Option Nat` (`none` is `NULL`).
* A function that cannot return (`exit`, `halt`) ends an `Outcome` early.
-/

namespace Syscall

/-- Lower bound of the descriptors handed out by `open` (`syscall.h`). -/
def MIN_FD_VAL : Nat := 2

/-- Capacity of the descriptor array (`syscall.h`). -/
def MAX_FD_VAL : Nat := 128

/-- The call numbers that `syscall_handler` switches on. -/
inductive SysNr where
  | HALT | EXIT | EXEC | WAIT | CREATE | REMOVE | OPEN | FILESIZE
  | READ | WRITE | SEEK | TELL | CLOSE | REPORT_MEM_USAGE
  deriving DecidableEq, Repr

/-- Calls that leave `syscall.c`, with their arguments. -/
inductive Event where
  | lock_acquire
  | lock_release
  | shutdown_power_off
  | filesys_create (file : Nat) (initial_size : Nat)
  | filesys_open (file : Nat)
  | filesys_remove (file : Nat)
  | file_close (h : Nat)
  | file_length (h : Nat)
  | file_read (h : Nat) (buffer : Nat) (size : Nat)
  | file_write (h : Nat) (buffer : Nat) (size : Nat)
  | file_seek (h : Nat) (position : Nat)
  | file_tell (h : Nat)
  | inode_is_subdir (h : Nat)
  | file_allow_write (h : Nat)
  | input_getc
  | store_byte (addr : Nat) (val : Nat)
  | putbuf (buffer : Nat) (size : Nat)
  | printf (line : String)
  | thread_exit
  | process_execute (cmd_line : Nat)
  | process_wait (pid : Int)
  | list_remove (tid : Int)
  deriving DecidableEq, Repr

/-- The fields of the parent thread that `exit` writes. -/
structure Parent where
  child_exited : Bool
  child_status : Int
  deriving DecidableEq, Repr

/-- An entry of `list_of_childs`. -/
structure Child where
  tid : Int
  load_error : Bool
  deriving DecidableEq, Repr

/-- The current thread, the file-system lock as seen by it, and the history. -/
structure Thread where
  name : String
  fd_list : Nat → Option Nat
  fd_val : Int
  parent : Option Parent
  e_status : Int
  curr_file : Option Nat
  used_memory : Int
  list_of_childs : List Child
  lock_held : Bool
  oob_stores : List (Int × Option Nat)
  trace : List Event

/-- Everything `syscall.c` consumes from outside: the page tables and user
memory, the call-number encoding of `syscall-nr.h`, `PID_ERROR`, and the
results of the collaborators as functions of the history. -/
structure Env where
  is_kernel_vaddr : Nat → Bool
  pagedir_get_page : Nat → Bool
  mem : Nat → Int
  decode : Int → Option SysNr
  PID_ERROR : Int
  strlen : Nat → Nat
  filesys_create : List Event → Nat → Nat → Bool
  filesys_open : List Event → Nat → Option Nat
  filesys_remove : List Event → Nat → Bool
  file_length : List Event → Nat → Int
  file_read : List Event → Nat → Nat → Nat → Int
  file_write : List Event → Nat → Nat → Nat → Int
  file_tell : List Event → Nat → Int
  inode_is_subdir : List Event → Nat → Bool
  input_getc : List Event → Nat
  process_execute : List Event → Nat → List Child → Int × List Child
  process_wait : List Event → Int → List Child → Int × List Child
  undef_child : Option Child

/-- The interrupt frame: the user stack pointer and the result register. -/
structure Frame where
  esp : Nat
  eax : Nat
  deriving DecidableEq, Repr

/-- How a piece of kernel code ends: it returns, the thread is gone
(`thread_exit`), or the machine is off (`shutdown_power_off`). -/
inductive Outcome (α : Type) where
  | ret (st : Thread) (v : α)
  | exited (st : Thread)
  | halted (st : Thread)

/-- Final thread state of an outcome. -/
def Outcome.state {α : Type} : Outcome α → Thread
  | .ret st _ => st
  | .exited st => st
  | .halted st => st

/-- Returned value, when the code returned. -/
def Outcome.val? {α : Type} : Outcome α → Option α
  | .ret _ v => some v
  | .exited _ => none
  | .halted _ => none

/-- Whether the outcome is the end of the thread. -/
def Outcome.isExited {α : Type} : Outcome α → Bool
  | .exited _ => true
  | _ => false

/-- Conversion to `unsigned` / `uint32_t`. -/
def u32 (v : Int) : Nat := (v % 4294967296).toNat

/-- Conversion of an `unsigned` to `int`. -/
def s32 (n : Nat) : Int :=
  if n % 4294967296 < 2147483648 then (n % 4294967296 : Nat) else (n % 4294967296 : Nat) - 4294967296

/-- Append one event to the history. -/
def emit (st : Thread) (e : Event) : Thread :=
  { st with trace := st.trace ++ [e] }

/-- The call `lock_acquire (&filesys_lock)`. -/
def lock_acquire (st : Thread) : Thread :=
  { st with lock_held := true, trace := st.trace ++ [Event.lock_acquire] }

/-- The call `lock_release (&filesys_lock)`. -/
def lock_release (st : Thread) : Thread :=
  { st with lock_held := false, trace := st.trace ++ [Event.lock_release] }

/-- The table with slot `i` replaced. -/
def setSlot (t : Nat → Option Nat) (i : Nat) (v : Option Nat) : Nat → Option Nat :=
  fun j => if j = i then v else t j

/-- The assignment `fd_list[fd] = v`.  The array has `MAX_FD_VAL` entries; an
index outside it does not touch the table and is recorded in `oob_stores`. -/
def fd_store (st : Thread) (fd : Int) (v : Option Nat) : Thread :=
  if 0 ≤ fd ∧ fd < MAX_FD_VAL then
    { st with fd_list := setSlot st.fd_list fd.toNat v }
  else
    { st with oob_stores := st.oob_stores ++ [(fd, v)] }

/-- Source: `exit`. Ends at `thread_exit`; the result is the state there. -/
def exit (st : Thread) (status : Int) : Thread :=
  let st := if st.parent.isSome ∧ status = 0 then
      { st with parent := st.parent.map (fun p => { p with child_exited := true, child_status := status }) }
    else st
  let st := emit st (Event.printf (st.name ++ ": exit(" ++ toString status ++ ")\n"))
  let st := { st with e_status := status }
  let st := if st.lock_held = false then lock_acquire st else st
  let st := match st.curr_file with
    | some h => emit st (Event.file_allow_write h)
    | none => st
  let st := lock_release st
  emit st Event.thread_exit

/-- Source: `check_pointer`. -/
def check_pointer (env : Env) (st : Thread) (vaddr : Nat) : Outcome Unit :=
  if vaddr = 0 then Outcome.exited (exit st (-1))
  else if env.is_kernel_vaddr vaddr then Outcome.exited (exit st (-1))
  else if env.pagedir_get_page vaddr = false then Outcome.exited (exit st (-1))
  else Outcome.ret st ()

/-- Source: `halt`. -/
def halt (st : Thread) : Thread :=
  emit st Event.shutdown_power_off

/-- Source: `create`. -/
def create (env : Env) (st : Thread) (file : Nat) (initial_size : Nat) : Thread × Bool :=
  let st := lock_acquire st
  let success := env.filesys_create st.trace file initial_size
  let st := emit st (Event.filesys_create file initial_size)
  let st := lock_release st
  (st, success)

/-- Source: `valid_fd`. -/
def valid_fd (fd : Int) : Bool :=
  if ¬ (fd < 0 ∨ fd > 127) then true else false

/-- The `for` loop of `get_fd`: `n` iterations are left, the index is `fd_idx`. -/
def get_fd_loop (t : Nat → Option Nat) : Nat → Nat → Int
  | 0, _ => -1
  | n + 1, fd_idx => if t fd_idx = none then (fd_idx : Int) else get_fd_loop t n (fd_idx + 1)

/-- Source: `get_fd`. -/
def get_fd (st : Thread) : Int :=
  get_fd_loop st.fd_list (MAX_FD_VAL - MIN_FD_VAL) MIN_FD_VAL

/-- Source: `close`. -/
def close (st : Thread) (fd : Int) : Thread :=
  let st := lock_acquire st
  if valid_fd fd = false then lock_release st
  else
    match st.fd_list fd.toNat with
    | some curr_file =>
      let st := emit st (Event.file_close curr_file)
      let st := fd_store st fd none
      lock_release st
    | none => lock_release st

/-- Source: `open`.  The local `fd` is the result of `get_fd` throughout; the
cursor `fd_val` is an integer without a bound. -/
def sys_open (env : Env) (st : Thread) (file : Nat) : Thread × Int :=
  let st := lock_acquire st
  if file = 0 ∨ env.strlen file = 0 then (lock_release st, -1)
  else
    let fd := get_fd st
    let open_file := env.filesys_open st.trace file
    let st := emit st (Event.filesys_open file)
    match open_file with
    | none => (lock_release st, -1)
    | some h =>
      let st := if fd = -1 then
          let st := close st st.fd_val
          let st := { st with fd_val := st.fd_val + 1 }
          if st.fd_val = (MAX_FD_VAL : Int) then { st with fd_val := (MIN_FD_VAL : Int) } else st
        else st
      let st := fd_store st fd (some h)
      (lock_release st, fd)

/-- Source: `child_thr`.  When the list is not empty and holds no such child,
the C function leaves the loop and ends without `return` and without
releasing the lock; the value the caller then sees is `env.undef_child`. -/
def child_thr (env : Env) (st : Thread) (tid_val : Int) : Thread × Option Child :=
  let st := lock_acquire st
  if st.list_of_childs ≠ [] then
    match st.list_of_childs.find? (fun c => decide (tid_val = c.tid)) with
    | some c => (lock_release st, some c)
    | none => (st, env.undef_child)
  else (lock_release st, none)

/-- Source: `exec`. -/
def exec (env : Env) (st : Thread) (cmd_line : Nat) : Thread × Int :=
  if cmd_line = 0 then (st, -1)
  else
    let r := env.process_execute st.trace cmd_line st.list_of_childs
    let st := emit { st with list_of_childs := r.2 } (Event.process_execute cmd_line)
    let tid := r.1
    let pid := tid
    if pid = env.PID_ERROR then (st, env.PID_ERROR)
    else
      let r := child_thr env st tid
      let st := r.1
      match r.2 with
      | none => (st, -1)
      | some child =>
        if child.load_error = true then
          let st := emit { st with list_of_childs := st.list_of_childs.erase child }
            (Event.list_remove child.tid)
          (st, -1)
        else (st, pid)

/-- Source: `wait`. -/
def wait (env : Env) (st : Thread) (pid : Int) : Thread × Int :=
  let r := env.process_wait st.trace pid st.list_of_childs
  (emit { st with list_of_childs := r.2 } (Event.process_wait pid), r.1)

/-- Source: `filesize`. -/
def filesize (env : Env) (st : Thread) (fd : Int) : Thread × Int :=
  let st := lock_acquire st
  let size : Int := 0
  if valid_fd fd = false then (lock_release st, size)
  else
    match st.fd_list fd.toNat with
    | none => (lock_release st, size)
    | some curr_file =>
      let size := env.file_length st.trace curr_file
      let st := emit st (Event.file_length curr_file)
      (lock_release st, size)

/-- Source: `read`. -/
def read (env : Env) (st : Thread) (fd : Int) (buffer : Nat) (size : Nat) : Thread × Int :=
  let st := lock_acquire st
  let bytes_read : Int := 0
  if valid_fd fd = false then (lock_release st, bytes_read)
  else if fd = 0 then
    let val := env.input_getc st.trace % 256
    let st := emit st Event.input_getc
    let st := emit st (Event.store_byte buffer val)
    let bytes_read := s32 size
    (lock_release st, bytes_read)
  else
    match st.fd_list fd.toNat with
    | none => (lock_release st, bytes_read)
    | some curr_file =>
      let bytes_read := env.file_read st.trace curr_file buffer size
      let st := emit st (Event.file_read curr_file buffer size)
      (lock_release st, bytes_read)

/-- Source: `write`. -/
def write (env : Env) (st : Thread) (fd : Int) (buffer : Nat) (size : Nat) : Thread × Int :=
  let st := lock_acquire st
  if valid_fd fd = false then (lock_release st, 0)
  else
    let curr_file := st.fd_list fd.toNat
    if fd = 1 then
      let st := emit st (Event.putbuf buffer size)
      (lock_release st, s32 size)
    else
      match curr_file with
      | some curr_file =>
        let subdir := env.inode_is_subdir st.trace curr_file
        let st := emit st (Event.inode_is_subdir curr_file)
        if subdir = true then (lock_release st, -1)
        else
          let bytes_written := env.file_write st.trace curr_file buffer size
          let st := emit st (Event.file_write curr_file buffer size)
          (lock_release st, bytes_written)
      | none => (lock_release st, 0)

/-- Source: `seek`. -/
def seek (st : Thread) (fd : Int) (position : Nat) : Thread :=
  let st := lock_acquire st
  if valid_fd fd = false then lock_release st
  else
    match st.fd_list fd.toNat with
    | some curr_file =>
      let st := emit st (Event.file_seek curr_file position)
      lock_release st
    | none => lock_release st

/-- Source: `tell`.  The result type is `unsigned`. -/
def tell (env : Env) (st : Thread) (fd : Int) : Thread × Nat :=
  let st := lock_acquire st
  let error : Int := -1
  if valid_fd fd = false then (lock_release st, u32 error)
  else
    match st.fd_list fd.toNat with
    | some curr_file =>
      let pos := u32 (env.file_tell st.trace curr_file)
      let st := emit st (Event.file_tell curr_file)
      (lock_release st, pos)
    | none => (lock_release st, u32 error)

/-- Source: `remove`. -/
def remove (env : Env) (st : Thread) (file : Nat) : Thread × Bool :=
  let st := lock_acquire st
  let removed := env.filesys_remove st.trace file
  let st := emit st (Event.filesys_remove file)
  let st := lock_release st
  (st, removed)

/-- Source: `report_mem_usage`. -/
def report_mem_usage (st : Thread) : Int :=
  st.used_memory

/-- What the dispatcher does with the user stack, in program order: a call of
`check_pointer`, a read of a stack word, the call of an operation. -/
inductive Mark where
  | check (vaddr : Nat)
  | load (addr : Nat)
  | invoke (nr : SysNr) (args : List Int)
  deriving DecidableEq, Repr

/-- Result of one trap: the frame as the dispatcher leaves it, its marks, and
how it ended. -/
structure Trap where
  frame : Frame
  marks : List Mark
  out : Outcome Unit

/-- The pointer `program + i`, for `int *program`. -/
def wordAddr (program : Nat) (i : Nat) : Nat :=
  (program + 4 * i) % 4294967296

/-- The value of `program[i]`. -/
def arg (env : Env) (program : Nat) (i : Nat) : Int :=
  env.mem (wordAddr program i)

/-- A call `check_pointer (v)` made by the dispatcher: when it fails the trap
is over, with the frame as it is. -/
def checked (env : Env) (st : Thread) (f : Frame) (ms : List Mark) (v : Nat)
    (k : Thread → List Mark → Trap) : Trap :=
  match check_pointer env st v with
  | Outcome.ret st1 _ => k st1 (ms ++ [Mark.check v])
  | Outcome.exited st1 => ⟨f, ms ++ [Mark.check v], Outcome.exited st1⟩
  | Outcome.halted st1 => ⟨f, ms ++ [Mark.check v], Outcome.halted st1⟩

/-- Source: `syscall_handler`. -/
def syscall_handler (env : Env) (st : Thread) (f : Frame) : Trap :=
  let program := f.esp
  checked env st f [] program fun st ms =>
  let program_name := arg env program 0
  let ms := ms ++ [Mark.load (wordAddr program 0)]
  match env.decode program_name with
  | some SysNr.HALT =>
    ⟨f, ms ++ [Mark.invoke SysNr.HALT []], Outcome.halted (halt st)⟩
  | some SysNr.EXIT =>
    checked env st f ms (wordAddr program 1) fun st ms =>
    let status := arg env program 1
    let ms := ms ++ [Mark.load (wordAddr program 1)]
    ⟨f, ms ++ [Mark.invoke SysNr.EXIT [status]], Outcome.exited (exit st status)⟩
  | some SysNr.EXEC =>
    checked env st f ms (wordAddr program 1) fun st ms =>
    let filename := u32 (arg env program 1)
    let ms := ms ++ [Mark.load (wordAddr program 1)]
    let r := exec env st filename
    ⟨{ f with eax := u32 r.2 }, ms ++ [Mark.invoke SysNr.EXEC [filename]], Outcome.ret r.1 ()⟩
  | some SysNr.WAIT =>
    checked env st f ms ((program + 1) % 4294967296) fun st ms =>
    let pid := arg env program 1
    let ms := ms ++ [Mark.load (wordAddr program 1)]
    let r := wait env st pid
    ⟨{ f with eax := u32 r.2 }, ms ++ [Mark.invoke SysNr.WAIT [pid]], Outcome.ret r.1 ()⟩
  | some SysNr.CREATE =>
    let ms := ms ++ [Mark.load (wordAddr program 1)]
    checked env st f ms (u32 (arg env program 1)) fun st ms =>
    checked env st f ms (wordAddr program 2) fun st ms =>
    let file1 := u32 (arg env program 1)
    let ms := ms ++ [Mark.load (wordAddr program 1)]
    let initial_size := u32 (arg env program 2)
    let ms := ms ++ [Mark.load (wordAddr program 2)]
    let r := create env st file1 initial_size
    ⟨{ f with eax := if r.2 then 1 else 0 },
      ms ++ [Mark.invoke SysNr.CREATE [file1, initial_size]], Outcome.ret r.1 ()⟩
  | some SysNr.REMOVE =>
    checked env st f ms (wordAddr program 1) fun st ms =>
    let file2 := u32 (arg env program 1)
    let ms := ms ++ [Mark.load (wordAddr program 1)]
    let r := remove env st file2
    ⟨{ f with eax := if r.2 then 1 else 0 },
      ms ++ [Mark.invoke SysNr.REMOVE [file2]], Outcome.ret r.1 ()⟩
  | some SysNr.OPEN =>
    let ms := ms ++ [Mark.load (wordAddr program 1)]
    checked env st f ms (u32 (arg env program 1)) fun st ms =>
    let file3 := u32 (arg env program 1)
    let ms := ms ++ [Mark.load (wordAddr program 1)]
    let r := sys_open env st file3
    ⟨{ f with eax := u32 r.2 }, ms ++ [Mark.invoke SysNr.OPEN [file3]], Outcome.ret r.1 ()⟩
  | some SysNr.FILESIZE =>
    checked env st f ms (wordAddr program 1) fun st ms =>
    let fd1 := arg env program 1
    let ms := ms ++ [Mark.load (wordAddr program 1)]
    let r := filesize env st fd1
    ⟨{ f with eax := u32 r.2 }, ms ++ [Mark.invoke SysNr.FILESIZE [fd1]], Outcome.ret r.1 ()⟩
  | some SysNr.READ =>
    checked env st f ms (wordAddr program 1) fun st ms =>
    let ms := ms ++ [Mark.load (wordAddr program 2)]
    checked env st f ms (u32 (arg env program 2)) fun st ms =>
    checked env st f ms (wordAddr program 3) fun st ms =>
    let fd2 := arg env program 1
    let ms := ms ++ [Mark.load (wordAddr program 1)]
    let buffer1 := u32 (arg env program 2)
    let ms := ms ++ [Mark.load (wordAddr program 2)]
    let size1 := u32 (arg env program 3)
    let ms := ms ++ [Mark.load (wordAddr program 3)]
    let r := read env st fd2 buffer1 size1
    ⟨{ f with eax := u32 r.2 },
      ms ++ [Mark.invoke SysNr.READ [fd2, buffer1, size1]], Outcome.ret r.1 ()⟩
  | some SysNr.WRITE =>
    checked env st f ms (wordAddr program 1) fun st ms =>
    let ms := ms ++ [Mark.load (wordAddr program 2)]
    checked env st f ms (u32 (arg env program 2)) fun st ms =>
    checked env st f ms (wordAddr program 3) fun st ms =>
    let fd3 := arg env program 1
    let ms := ms ++ [Mark.load (wordAddr program 1)]
    let buffer2 := u32 (arg env program 2)
    let ms := ms ++ [Mark.load (wordAddr program 2)]
    let size2 := u32 (arg env program 3)
    let ms := ms ++ [Mark.load (wordAddr program 3)]
    let r := write env st fd3 buffer2 size2
    ⟨{ f with eax := u32 r.2 },
      ms ++ [Mark.invoke SysNr.WRITE [fd3, buffer2, size2]], Outcome.ret r.1 ()⟩
  | some SysNr.SEEK =>
    checked env st f ms (wordAddr program 1) fun st ms =>
    checked env st f ms (wordAddr program 2) fun st ms =>
    let fd4 := arg env program 1
    let ms := ms ++ [Mark.load (wordAddr program 1)]
    let position := u32 (arg env program 2)
    let ms := ms ++ [Mark.load (wordAddr program 2)]
    ⟨f, ms ++ [Mark.invoke SysNr.SEEK [fd4, position]], Outcome.ret (seek st fd4 position) ()⟩
  | some SysNr.TELL =>
    checked env st f ms (wordAddr program 1) fun st ms =>
    let fd5 := arg env program 1
    let ms := ms ++ [Mark.load (wordAddr program 1)]
    let r := tell env st fd5
    ⟨{ f with eax := r.2 }, ms ++ [Mark.invoke SysNr.TELL [fd5]], Outcome.ret r.1 ()⟩
  | some SysNr.CLOSE =>
    checked env st f ms (wordAddr program 1) fun st ms =>
    let fd6 := arg env program 1
    let ms := ms ++ [Mark.load (wordAddr program 1)]
    ⟨f, ms ++ [Mark.invoke SysNr.CLOSE [fd6]], Outcome.ret (close st fd6) ()⟩
  | some SysNr.REPORT_MEM_USAGE =>
    ⟨{ f with eax := u32 (report_mem_usage st) },
      ms ++ [Mark.invoke SysNr.REPORT_MEM_USAGE []], Outcome.ret st ()⟩
  | none => ⟨f, ms, Outcome.ret st ()⟩

/-! ## Vocabulary of the statements -/

/-- The three reasons for which `check_pointer` refuses an address. -/
def rejected (env : Env) (v : Nat) : Prop :=
  v = 0 ∨ env.is_kernel_vaddr v = true ∨ env.pagedir_get_page v = false

instance (env : Env) (v : Nat) : Decidable (rejected env v) := by
  unfold rejected; infer_instance

/-- Every read of a stack word comes after a `check_pointer` call on the
address read; `seen` holds the addresses checked so far. -/
def loads_checked : List Nat → List Mark → Bool
  | _, [] => true
  | seen, Mark.check v :: ms => loads_checked (v :: seen) ms
  | seen, Mark.load a :: ms => decide (a ∈ seen) && loads_checked seen ms
  | seen, Mark.invoke _ _ :: ms => loads_checked seen ms

/-- The handles given to `file_close`, in order. -/
def closes : List Event → List Nat
  | [] => []
  | Event.file_close h :: es => h :: closes es
  | _ :: es => closes es

/-- Calls into the file system (`filesys/*.h`). -/
def isFsCall : Event → Bool
  | Event.filesys_create _ _ => true
  | Event.filesys_open _ => true
  | Event.filesys_remove _ => true
  | Event.file_close _ => true
  | Event.file_length _ => true
  | Event.file_read _ _ _ => true
  | Event.file_write _ _ _ => true
  | Event.file_seek _ _ => true
  | Event.file_tell _ => true
  | Event.inode_is_subdir _ => true
  | Event.file_allow_write _ => true
  | _ => false

/-- Calls of `printf`. -/
def isPrintf : Event → Bool
  | Event.printf _ => true
  | _ => false

/-- The lock discipline on a run of events that starts with the lock in state
`held`: no `lock_acquire` while the thread holds the lock, no `lock_release`
while it does not, and every file-system or console call made with the lock
held. -/
def lock_ok : Bool → List Event → Bool
  | _, [] => true
  | held, Event.lock_acquire :: es => !held && lock_ok true es
  | held, Event.lock_release :: es => held && lock_ok false es
  | held, e :: es =>
    (held || !(isFsCall e || e matches Event.input_getc || e matches Event.putbuf _ _ ||
      e matches Event.store_byte _ _)) && lock_ok held es

/-- A run of `open` calls, one per path, collecting the descriptors. -/
def open_all (env : Env) : Thread → List Nat → Thread × List Int
  | st, [] => (st, [])
  | st, p :: ps =>
    ((open_all env (sys_open env st p).1 ps).1,
      (sys_open env st p).2 :: (open_all env (sys_open env st p).1 ps).2)

/-- Each `open` of the run finds a free slot and a path that the file system
opens. -/
def opens_ok (env : Env) : Thread → List Nat → Prop
  | _, [] => True
  | st, p :: ps =>
    (∃ i, 2 ≤ i ∧ i < 128 ∧ st.fd_list i = none) ∧ p ≠ 0 ∧ env.strlen p ≠ 0 ∧
      (env.filesys_open (st.trace ++ [Event.lock_acquire]) p).isSome = true ∧
      opens_ok env (sys_open env st p).1 ps

/-! ## Concrete inputs -/

/-- A user address space with the usual layout: kernel addresses start at
`0xc0000000`, pages are mapped from `0x08048000` upwards; call numbers as in
`syscall-nr.h`; a file system in which every path opens to `fsopen`. -/
def demoEnv (mem : Nat → Int) (fsopen : Option Nat) : Env where
  is_kernel_vaddr := fun a => decide (3221225472 ≤ a)
  pagedir_get_page := fun a => decide (134512640 ≤ a)
  mem := mem
  decode := fun n => match n with
    | 0 => some SysNr.HALT | 1 => some SysNr.EXIT | 2 => some SysNr.EXEC
    | 3 => some SysNr.WAIT | 4 => some SysNr.CREATE | 5 => some SysNr.REMOVE
    | 6 => some SysNr.OPEN | 7 => some SysNr.FILESIZE | 8 => some SysNr.READ
    | 9 => some SysNr.WRITE | 10 => some SysNr.SEEK | 11 => some SysNr.TELL
    | 12 => some SysNr.CLOSE | 20 => some SysNr.REPORT_MEM_USAGE | _ => none
  PID_ERROR := -1
  strlen := fun _ => 1
  filesys_create := fun _ _ _ => true
  filesys_open := fun _ _ => fsopen
  filesys_remove := fun _ _ => true
  file_length := fun _ _ => 0
  file_read := fun _ _ _ _ => 0
  file_write := fun _ _ _ _ => 0
  file_tell := fun _ _ => 0
  inode_is_subdir := fun _ _ => false
  input_getc := fun _ => 0
  process_execute := fun _ _ l => (-1, l)
  process_wait := fun _ _ l => (-1, l)
  undef_child := none

/-- A thread called `main` with descriptor table `t` and cursor `cur`, no
parent, no children, not holding the lock, with an empty history. -/
def demoThread (t : Nat → Option Nat) (cur : Int) : Thread where
  name := "main"
  fd_list := t
  fd_val := cur
  parent := none
  e_status := 0
  curr_file := none
  used_memory := 0
  list_of_childs := []
  lock_held := false
  oob_stores := []
  trace := []

/-- The environment `demoEnv` with a `process_execute` that answers `tid` and
leaves `childs` as the child list of the caller. -/
def spawnEnv (tid : Int) (childs : List Child) : Env :=
  { demoEnv (fun _ => 0) none with process_execute := fun _ _ _ => (tid, childs) }

/-! ## Runs of descriptor operations -/

/-- One call of an operation that works on descriptors. -/
inductive FdOp where
  | open (file : Nat)
  | close (fd : Int)
  | read (fd : Int) (buffer : Nat) (size : Nat)
  | write (fd : Int) (buffer : Nat) (size : Nat)
  | seek (fd : Int) (position : Nat)
  | tell (fd : Int)
  | filesize (fd : Int)
  deriving DecidableEq, Repr

/-- The thread after one such call. -/
def run_op (env : Env) (st : Thread) : FdOp → Thread
  | FdOp.open file => (sys_open env st file).1
  | FdOp.close fd => close st fd
  | FdOp.read fd buffer size => (read env st fd buffer size).1
  | FdOp.write fd buffer size => (write env st fd buffer size).1
  | FdOp.seek fd position => seek st fd position
  | FdOp.tell fd => (tell env st fd).1
  | FdOp.filesize fd => (filesize env st fd).1

/-- The thread after a sequence of such calls. -/
def run_ops (env : Env) : Thread → List FdOp → Thread
  | st, [] => st
  | st, op :: ops => run_ops env (run_op env st op) ops

/-! # Theorems -/

set_option maxRecDepth 8192

/-! ## The pointer validator and the dispatcher -/

theorem check_pointer_eq (env : Env) (st : Thread) (v : Nat) :
    check_pointer env st v =
      if rejected env v then Outcome.exited (exit st (-1)) else Outcome.ret st () := by
  unfold check_pointer rejected
  by_cases h0 : v = 0
  · simp [h0]
  · by_cases h1 : env.is_kernel_vaddr v = true
    · simp [h0, h1]
    · by_cases h2 : env.pagedir_get_page v = false
      · simp [h0, h1, h2]
      · simp [h0, h1, h2]

theorem checked_eq (env : Env) (st : Thread) (f : Frame) (ms : List Mark) (v : Nat)
    (k : Thread → List Mark → Trap) :
    checked env st f ms v k =
      if rejected env v then ⟨f, ms ++ [Mark.check v], Outcome.exited (exit st (-1))⟩
      else k st (ms ++ [Mark.check v]) := by
  unfold checked
  rw [check_pointer_eq]
  by_cases h : rejected env v <;> simp [h]

theorem exit_trace_last (st : Thread) (status : Int) :
    (exit st status).trace.getLast? = some Event.thread_exit := by
  simp [exit, emit]

theorem handler_failed_check (env : Env) (st : Thread) (f : Frame)
    (h : ∃ a, Mark.check a ∈ (syscall_handler env st f).marks ∧ rejected env a) :
    (∀ nr args, Mark.invoke nr args ∉ (syscall_handler env st f).marks) ∧
    (syscall_handler env st f).frame = f ∧
    (syscall_handler env st f).out = Outcome.exited (exit st (-1)) := by
  obtain ⟨a, ha, hr⟩ := h
  revert ha
  unfold syscall_handler
  rw [checked_eq]
  by_cases h0 : rejected env f.esp
  · simp [h0]
  · simp only [h0, if_false]
    cases hd : env.decode (arg env f.esp 0) with
    | none =>
      simp
      intro h; subst h; exact absurd hr h0
    | some nr =>
      cases nr <;> simp only [checked_eq] <;> (try split_ifs) <;>
        simp only [List.nil_append, List.append_assoc, List.singleton_append, List.cons_append,
          List.mem_cons, List.mem_singleton, List.not_mem_nil, Mark.check.injEq, or_false,
          reduceCtorEq, false_or, or_false, not_false_eq_true, implies_true, and_self, true_and,
          not_or] <;>
        (try (intro h; rcases h with h | h | h | h <;> subst h <;> contradiction)) <;>
        (try (intro h; rcases h with h | h | h <;> subst h <;> contradiction)) <;>
        (try (intro h; rcases h with h | h <;> subst h <;> contradiction)) <;>
        (try (intro h; subst h; contradiction))

/-- C1, at a failing input: a REMOVE trap whose path argument `program[1]` is
the kernel address `0xc0000000`.  The dispatcher checks the stack pointer and
the address of the argument word, never the argument itself, and calls
`remove` with it: `filesys_remove` receives the kernel address, the trap
returns and `eax` is written. -/
theorem remove_called_with_unchecked_pointer :
    rejected (demoEnv (fun a => if a = 3221225216 then 5 else -1073741824) none) 3221225472 ∧
    (syscall_handler (demoEnv (fun a => if a = 3221225216 then 5 else -1073741824) none)
      (demoThread (fun _ => none) 2) ⟨3221225216, 77⟩).marks =
      [Mark.check 3221225216, Mark.load 3221225216, Mark.check 3221225220,
        Mark.load 3221225220, Mark.invoke SysNr.REMOVE [3221225472]] ∧
    (syscall_handler (demoEnv (fun a => if a = 3221225216 then 5 else -1073741824) none)
      (demoThread (fun _ => none) 2) ⟨3221225216, 77⟩).out.state.trace =
      [Event.lock_acquire, Event.filesys_remove 3221225472, Event.lock_release] ∧
    (syscall_handler (demoEnv (fun a => if a = 3221225216 then 5 else -1073741824) none)
      (demoThread (fun _ => none) 2) ⟨3221225216, 77⟩).out.isExited = false ∧
    (syscall_handler (demoEnv (fun a => if a = 3221225216 then 5 else -1073741824) none)
      (demoThread (fun _ => none) 2) ⟨3221225216, 77⟩).frame.eax = 1 := by
  decide

/-- C2, at a failing input: a WAIT trap with the stack pointer at
`0xbffffffc`, the last word below the kernel range.  The dispatcher checks
`esp` and `esp + 1`, then reads `program[1]` at `esp + 4 = 0xc0000000`, an
address it never checked (and a kernel address). -/
theorem wait_argument_read_unchecked :
    (syscall_handler (demoEnv (fun a => if a = 3221225468 then 3 else 9) none)
      (demoThread (fun _ => none) 2) ⟨3221225468, 77⟩).marks =
      [Mark.check 3221225468, Mark.load 3221225468, Mark.check 3221225469,
        Mark.load 3221225472, Mark.invoke SysNr.WAIT [9]] ∧
    loads_checked [] (syscall_handler (demoEnv (fun a => if a = 3221225468 then 3 else 9) none)
      (demoThread (fun _ => none) 2) ⟨3221225468, 77⟩).marks = false ∧
    rejected (demoEnv (fun a => if a = 3221225468 then 3 else 9) none) (wordAddr 3221225468 1) := by
  decide

/-- C3: `check_pointer v` ends the process through `exit (-1)` exactly when
`v` is null, a kernel address or unmapped; a null address is refused whatever
the other two tests say, and a kernel address whatever the page directory
says; every other address makes it return with the state as it was.  When a
check made by `syscall_handler` fails, the trap ends in `exit (-1)` from the
entry state, no operation has been invoked and the frame is as it was. -/
theorem check_pointer_exits_iff_rejected (env : Env) (st : Thread) (f : Frame) (v : Nat) :
    (check_pointer env st v = Outcome.exited (exit st (-1)) ↔ rejected env v) ∧
    (¬ rejected env v → check_pointer env st v = Outcome.ret st ()) ∧
    (v = 0 → ∀ env2 : Env, check_pointer env2 st v = Outcome.exited (exit st (-1))) ∧
    (env.is_kernel_vaddr v = true → ∀ env2 : Env, env2.is_kernel_vaddr = env.is_kernel_vaddr →
      check_pointer env2 st v = Outcome.exited (exit st (-1))) ∧
    (exit st (-1)).trace.getLast? = some Event.thread_exit ∧
    ((∃ a, Mark.check a ∈ (syscall_handler env st f).marks ∧ rejected env a) →
      (∀ nr args, Mark.invoke nr args ∉ (syscall_handler env st f).marks) ∧
      (syscall_handler env st f).frame = f ∧
      (syscall_handler env st f).out = Outcome.exited (exit st (-1))) := by
  refine ⟨?_, ?_, ?_, ?_, exit_trace_last st (-1), handler_failed_check env st f⟩
  · rw [check_pointer_eq]
    by_cases h : rejected env v <;> simp [h]
  · intro h
    rw [check_pointer_eq]; simp [h]
  · intro h env2
    rw [check_pointer_eq]; simp [rejected, h]
  · intro h env2 h2
    rw [check_pointer_eq]; simp [rejected, h, h2]

/-- C3 at concrete inputs: the null address and the kernel address
`0xc0000000` are refused, the mapped user address `0x08048000` is accepted,
and an OPEN trap whose path argument is null is ended by the failed check,
with `eax` untouched. -/
theorem check_pointer_exits_iff_rejected_witness :
    check_pointer (demoEnv (fun _ => 0) none) (demoThread (fun _ => none) 2) 0 =
      Outcome.exited (exit (demoThread (fun _ => none) 2) (-1)) ∧
    check_pointer (demoEnv (fun _ => 0) none) (demoThread (fun _ => none) 2) 3221225472 =
      Outcome.exited (exit (demoThread (fun _ => none) 2) (-1)) ∧
    check_pointer (demoEnv (fun _ => 0) none) (demoThread (fun _ => none) 2) 134512640 =
      Outcome.ret (demoThread (fun _ => none) 2) () ∧
    (syscall_handler (demoEnv (fun a => if a = 3221225216 then 6 else 0) none)
      (demoThread (fun _ => none) 2) ⟨3221225216, 77⟩).frame = ⟨3221225216, 77⟩ :=
  ⟨(check_pointer_exits_iff_rejected (demoEnv (fun _ => 0) none)
      (demoThread (fun _ => none) 2) ⟨3221225216, 77⟩ 0).2.2.1 rfl _,
   (check_pointer_exits_iff_rejected (demoEnv (fun _ => 0) none)
      (demoThread (fun _ => none) 2) ⟨3221225216, 77⟩ 3221225472).2.2.2.1 (by decide) _ rfl,
   (check_pointer_exits_iff_rejected (demoEnv (fun _ => 0) none)
      (demoThread (fun _ => none) 2) ⟨3221225216, 77⟩ 134512640).2.1 (by decide),
   ((check_pointer_exits_iff_rejected (demoEnv (fun a => if a = 3221225216 then 6 else 0) none)
      (demoThread (fun _ => none) 2) ⟨3221225216, 77⟩ 0).2.2.2.2.2
      ⟨0, by decide, by decide⟩).2.1⟩

/-! ## Descriptor allocation -/

theorem get_fd_loop_cases (t : Nat → Option Nat) : ∀ n i : Nat,
    (get_fd_loop t n i = -1 ∧ ∀ j, i ≤ j → j < i + n → t j ≠ none) ∨
    (∃ k : Nat, get_fd_loop t n i = (k : Int) ∧ i ≤ k ∧ k < i + n ∧ t k = none ∧
      ∀ j, i ≤ j → j < k → t j ≠ none) := by
  intro n
  induction n with
  | zero =>
    intro i
    left
    refine ⟨rfl, ?_⟩
    intro j h1 h2
    omega
  | succ n ih =>
    intro i
    by_cases hi : t i = none
    · right
      refine ⟨i, ?_, le_refl i, by omega, hi, ?_⟩
      · simp [get_fd_loop, hi]
      · intro j h1 h2
        omega
    · rcases ih (i + 1) with ⟨h1, h2⟩ | ⟨k, h1, h2, h3, h4, h5⟩
      · left
        refine ⟨?_, ?_⟩
        · simp [get_fd_loop, hi, h1]
        · intro j hj1 hj2
          by_cases hji : j = i
          · subst hji; exact hi
          · exact h2 j (by omega) (by omega)
      · right
        refine ⟨k, ?_, by omega, by omega, h4, ?_⟩
        · simp [get_fd_loop, hi, h1]
        · intro j hj1 hj2
          by_cases hji : j = i
          · subst hji; exact hi
          · exact h5 j (by omega) hj2

theorem get_fd_cases (st : Thread) :
    (get_fd st = -1 ∧ ∀ j, 2 ≤ j → j < 128 → st.fd_list j ≠ none) ∨
    (∃ k : Nat, get_fd st = (k : Int) ∧ 2 ≤ k ∧ k < 128 ∧ st.fd_list k = none ∧
      ∀ j, 2 ≤ j → j < k → st.fd_list j ≠ none) := by
  have h := get_fd_loop_cases st.fd_list (MAX_FD_VAL - MIN_FD_VAL) MIN_FD_VAL
  simp only [MAX_FD_VAL, MIN_FD_VAL] at h
  unfold get_fd
  simp only [MAX_FD_VAL, MIN_FD_VAL]
  rcases h with ⟨h1, h2⟩ | ⟨k, h1, h2, h3, h4, h5⟩
  · left
    exact ⟨h1, fun j a b => h2 j a (by omega)⟩
  · right
    exact ⟨k, h1, h2, by omega, h4, h5⟩

theorem get_fd_lock_acquire (st : Thread) : get_fd (lock_acquire st) = get_fd st := rfl

/-- What `open` does when a slot is free and the file system opens the path. -/
theorem sys_open_free (env : Env) (st : Thread) (file h : Nat)
    (hfree : ∃ i, 2 ≤ i ∧ i < 128 ∧ st.fd_list i = none)
    (hnn : file ≠ 0) (hne : env.strlen file ≠ 0)
    (hopen : env.filesys_open (st.trace ++ [Event.lock_acquire]) file = some h) :
    ∃ k : Nat, 2 ≤ k ∧ k < 128 ∧ st.fd_list k = none ∧
      (∀ j, 2 ≤ j → j < k → st.fd_list j ≠ none) ∧
      (sys_open env st file).2 = (k : Int) ∧
      (sys_open env st file).1.fd_list = setSlot st.fd_list k (some h) ∧
      (sys_open env st file).1.trace =
        st.trace ++ [Event.lock_acquire, Event.filesys_open file, Event.lock_release] ∧
      (sys_open env st file).1.fd_val = st.fd_val ∧
      (sys_open env st file).1.oob_stores = st.oob_stores ∧
      (sys_open env st file).1.lock_held = false := by
  rcases get_fd_cases st with ⟨_, h2⟩ | ⟨k, h1, h2, h3, h4, h5⟩
  · obtain ⟨i, a, b, c⟩ := hfree
    exact absurd c (h2 i a b)
  · refine ⟨k, h2, h3, h4, h5, ?_⟩
    have hk : ¬ ((k : Int) = -1) := by omega
    have hk2 : (0 : Int) ≤ k ∧ (k : Int) < (MAX_FD_VAL : Nat) := by
      simp only [MAX_FD_VAL]; omega
    have e : get_fd (lock_acquire st) = (k : Int) := h1
    have etr : (lock_acquire st).trace = st.trace ++ [Event.lock_acquire] := rfl
    unfold sys_open
    simp only [hnn, hne, or_self, if_false, e, etr, hopen, hk]
    simp [lock_acquire, lock_release, emit, fd_store, hk2]

theorem open_all_fds_free (env : Env) : ∀ (ps : List Nat) (st : Thread), opens_ok env st ps →
    ∀ fd ∈ (open_all env st ps).2,
      ∃ k : Nat, fd = (k : Int) ∧ 2 ≤ k ∧ k < 128 ∧ st.fd_list k = none := by
  intro ps
  induction ps with
  | nil =>
    intro st _ fd hfd
    simp [open_all] at hfd
  | cons p ps ih =>
    intro st hok fd hfd
    obtain ⟨hfree, hnn, hne, hopen, hrest⟩ := hok
    obtain ⟨h, hh⟩ := Option.isSome_iff_exists.mp hopen
    obtain ⟨k, k2, k128, kfree, _, kret, ktab, _⟩ := sys_open_free env st p h hfree hnn hne hh
    simp only [open_all, List.mem_cons] at hfd
    rcases hfd with hfd | hfd
    · exact ⟨k, by rw [hfd, kret], k2, k128, kfree⟩
    · obtain ⟨j, hj, j2, j128, jfree⟩ := ih _ hrest fd hfd
      refine ⟨j, hj, j2, j128, ?_⟩
      rw [ktab] at jfree
      unfold setSlot at jfree
      by_cases hjk : j = k
      · simp [hjk] at jfree
      · simpa [hjk] using jfree

theorem open_all_distinct (env : Env) : ∀ (ps : List Nat) (st : Thread), opens_ok env st ps →
    ((open_all env st ps).2).Pairwise (fun a b => a ≠ b) := by
  intro ps
  induction ps with
  | nil =>
    intro st _
    simp [open_all]
  | cons p ps ih =>
    intro st hok
    obtain ⟨hfree, hnn, hne, hopen, hrest⟩ := hok
    obtain ⟨h, hh⟩ := Option.isSome_iff_exists.mp hopen
    obtain ⟨k, k2, k128, kfree, _, kret, ktab, _⟩ := sys_open_free env st p h hfree hnn hne hh
    simp only [open_all, List.pairwise_cons]
    refine ⟨?_, ih _ hrest⟩
    intro fd hfd
    obtain ⟨j, hj, _, _, jfree⟩ := open_all_fds_free env ps _ hrest fd hfd
    rw [ktab] at jfree
    rw [kret, hj]
    intro hkj
    have : k = j := by exact_mod_cast hkj
    subst this
    simp [setSlot] at jfree

/-- C4: when a slot in `[2,128)` is free and the file system opens the
non-empty path, `open` returns the lowest free index of `[2,128)`, puts the
handle it got from `filesys_open` there and leaves every other slot as it
was.  In a run of such opens the descriptors are pairwise distinct and at
least 2, and the first open on an empty table returns 2. -/
theorem open_returns_lowest_free (env : Env) (st : Thread) :
    (∀ file h : Nat, (∃ i, 2 ≤ i ∧ i < 128 ∧ st.fd_list i = none) → file ≠ 0 →
      env.strlen file ≠ 0 →
      env.filesys_open (st.trace ++ [Event.lock_acquire]) file = some h →
      ∃ k : Nat, 2 ≤ k ∧ k < 128 ∧ st.fd_list k = none ∧
        (∀ j, 2 ≤ j → j < k → st.fd_list j ≠ none) ∧
        (sys_open env st file).2 = (k : Int) ∧
        (sys_open env st file).1.fd_list k = some h ∧
        (∀ j, j ≠ k → (sys_open env st file).1.fd_list j = st.fd_list j) ∧
        (sys_open env st file).1.oob_stores = st.oob_stores) ∧
    (∀ files : List Nat, opens_ok env st files →
      ((open_all env st files).2).Pairwise (fun a b => a ≠ b) ∧
      ∀ fd ∈ (open_all env st files).2, 2 ≤ fd ∧ fd < 128) ∧
    (∀ file h : Nat, (∀ i, 2 ≤ i → i < 128 → st.fd_list i = none) → file ≠ 0 →
      env.strlen file ≠ 0 →
      env.filesys_open (st.trace ++ [Event.lock_acquire]) file = some h →
      (sys_open env st file).2 = 2) := by
  refine ⟨?_, ?_, ?_⟩
  · intro file h hfree hnn hne hopen
    obtain ⟨k, k2, k128, kfree, klow, kret, ktab, _, _, koob, _⟩ :=
      sys_open_free env st file h hfree hnn hne hopen
    refine ⟨k, k2, k128, kfree, klow, kret, ?_, ?_, koob⟩
    · rw [ktab]; simp [setSlot]
    · intro j hj
      rw [ktab]; simp [setSlot, hj]
  · intro files hok
    refine ⟨open_all_distinct env files st hok, ?_⟩
    intro fd hfd
    obtain ⟨k, hk, k2, k128, _⟩ := open_all_fds_free env files st hok fd hfd
    subst hk
    omega
  · intro file h hempty hnn hne hopen
    obtain ⟨k, k2, _, _, klow, kret, _⟩ :=
      sys_open_free env st file h ⟨2, le_refl 2, by decide, hempty 2 (le_refl 2) (by decide)⟩
        hnn hne hopen
    have : k = 2 := by
      by_contra hne2
      exact klow 2 (le_refl 2) (by omega) (hempty 2 (le_refl 2) (by decide))
    rw [kret, this]
    rfl

/-- C4 at concrete inputs: on the empty table the first `open` returns 2, on
a table whose slots 2 and 3 are taken it returns 4, and two opens in a row
return distinct descriptors. -/
theorem open_returns_lowest_free_witness :
    (sys_open (demoEnv (fun _ => 0) (some 9)) (demoThread (fun _ => none) 2) 100).2 = 2 ∧
    (∃ k : Nat, 2 ≤ k ∧ k < 128 ∧
      (demoThread (fun j => if j < 4 then some 7 else none) 2).fd_list k = none ∧
      (∀ j, 2 ≤ j → j < k →
        (demoThread (fun j => if j < 4 then some 7 else none) 2).fd_list j ≠ none) ∧
      (sys_open (demoEnv (fun _ => 0) (some 9))
        (demoThread (fun j => if j < 4 then some 7 else none) 2) 100).2 = (k : Int) ∧
      (sys_open (demoEnv (fun _ => 0) (some 9))
        (demoThread (fun j => if j < 4 then some 7 else none) 2) 100).1.fd_list k = some 9 ∧
      (∀ j, j ≠ k → (sys_open (demoEnv (fun _ => 0) (some 9))
        (demoThread (fun j => if j < 4 then some 7 else none) 2) 100).1.fd_list j =
        (demoThread (fun j => if j < 4 then some 7 else none) 2).fd_list j) ∧
      (sys_open (demoEnv (fun _ => 0) (some 9))
        (demoThread (fun j => if j < 4 then some 7 else none) 2) 100).1.oob_stores =
        (demoThread (fun j => if j < 4 then some 7 else none) 2).oob_stores) ∧
    ((open_all (demoEnv (fun _ => 0) (some 9)) (demoThread (fun _ => none) 2)
      [100, 101]).2).Pairwise (fun a b => a ≠ b) :=
  ⟨(open_returns_lowest_free (demoEnv (fun _ => 0) (some 9))
      (demoThread (fun _ => none) 2)).2.2 100 9 (fun _ _ _ => rfl) (by decide) (by decide) rfl,
   (open_returns_lowest_free (demoEnv (fun _ => 0) (some 9))
      (demoThread (fun j => if j < 4 then some 7 else none) 2)).1 100 9
      ⟨4, by decide, by decide, by decide⟩ (by decide) (by decide) rfl,
   ((open_returns_lowest_free (demoEnv (fun _ => 0) (some 9))
      (demoThread (fun _ => none) 2)).2.1 [100, 101]
      ⟨⟨2, by decide, by decide, by decide⟩, by decide, by decide, by decide,
        ⟨3, by decide, by decide, by decide⟩, by decide, by decide, by decide, trivial⟩).1⟩

/-! ## The full table -/

/-- What `open` does when every slot of `[2,128)` is taken and the file system
opens the path: the result is -1 and the new handle is stored at index -1,
outside the array. -/
theorem sys_open_full (env : Env) (st : Thread) (file h : Nat)
    (hfull : ∀ j, 2 ≤ j → j < 128 → st.fd_list j ≠ none)
    (hnn : file ≠ 0) (hne : env.strlen file ≠ 0)
    (hopen : env.filesys_open (st.trace ++ [Event.lock_acquire]) file = some h) :
    (sys_open env st file).2 = -1 ∧
    (sys_open env st file).1.oob_stores = st.oob_stores ++ [(-1, some h)] ∧
    (sys_open env st file).1.fd_val =
      (if st.fd_val + 1 = 128 then 2 else st.fd_val + 1) := by
  have e : get_fd (lock_acquire st) = -1 := by
    rcases get_fd_cases st with ⟨h1, _⟩ | ⟨k, _, k2, k128, kfree, _⟩
    · exact h1
    · exact absurd kfree (hfull k k2 k128)
  have etr : (lock_acquire st).trace = st.trace ++ [Event.lock_acquire] := rfl
  unfold sys_open
  simp only [hnn, hne, or_self, if_false, e, etr, hopen, if_true]
  have hc : ∀ s : Thread, ∀ fd : Int, (close s fd).fd_val = s.fd_val ∧
      (close s fd).oob_stores = s.oob_stores := by
    intro s fd
    unfold close
    by_cases hv : valid_fd fd = false
    · simp [hv, lock_release, lock_acquire]
    · have hv2 : 0 ≤ fd ∧ fd < (MAX_FD_VAL : Nat) := by
        simp only [valid_fd, MAX_FD_VAL] at hv ⊢
        by_cases hh : fd < 0 ∨ fd > 127
        · simp [hh] at hv
        · push_neg at hh
          constructor
          · exact hh.1
          · have := hh.2
            push_cast
            omega
      simp only [hv, if_false]
      cases hs : (lock_acquire s).fd_list fd.toNat with
      | none => simp [lock_release, lock_acquire]
      | some c => simp [lock_release, lock_acquire, emit, fd_store, hv2]
  refine ⟨trivial, ?_, ?_⟩
  · split_ifs <;> simp [lock_release, fd_store, MAX_FD_VAL, (hc _ _).2, emit, lock_acquire]
  · split_ifs with h1 h2 h2 <;>
      simp_all [lock_release, fd_store, MAX_FD_VAL, MIN_FD_VAL, (hc _ _).1, emit, lock_acquire]

/-- C5, at a failing input: every slot holds handle 7, the cursor is 2, and
the file system opens the path to handle 9.  `open` closes slot 2 and moves
the cursor to 3, but returns -1 and stores the new handle at index -1,
outside the array; no slot of the table holds it. -/
theorem open_on_full_table_stores_out_of_bounds :
    (∀ j, 2 ≤ j → j < 128 → (demoThread (fun _ => some 7) 2).fd_list j ≠ none) ∧
    (sys_open (demoEnv (fun _ => 0) (some 9)) (demoThread (fun _ => some 7) 2) 100).2 = -1 ∧
    (sys_open (demoEnv (fun _ => 0) (some 9)) (demoThread (fun _ => some 7) 2) 100).1.oob_stores
      = [(-1, some 9)] ∧
    (sys_open (demoEnv (fun _ => 0) (some 9)) (demoThread (fun _ => some 7) 2) 100).1.fd_list 2
      = none ∧
    (sys_open (demoEnv (fun _ => 0) (some 9)) (demoThread (fun _ => some 7) 2) 100).1.fd_val = 3 ∧
    closes (sys_open (demoEnv (fun _ => 0) (some 9))
      (demoThread (fun _ => some 7) 2) 100).1.trace = [7] ∧
    (∀ j, j < 128 → (sys_open (demoEnv (fun _ => 0) (some 9))
      (demoThread (fun _ => some 7) 2) 100).1.fd_list j ≠ some 9) := by
  refine ⟨fun _ _ _ => Option.some_ne_none 7, by decide, by decide, by decide, by decide,
    by decide, by decide⟩

/-! ## The lock -/

/-- C6, at a failing input: `open` on a full table, entered without the lock.
It takes the lock, then calls `close`, which takes the lock again while it is
held and releases it, so that the `lock_release` at the end of `open`
releases a lock the thread no longer holds. -/
theorem open_on_full_table_reacquires_lock :
    (demoThread (fun _ => some 7) 2).lock_held = false ∧
    (sys_open (demoEnv (fun _ => 0) (some 9)) (demoThread (fun _ => some 7) 2) 100).1.trace =
      [Event.lock_acquire, Event.filesys_open 100, Event.lock_acquire, Event.file_close 7,
        Event.lock_release, Event.lock_release] ∧
    lock_ok false (sys_open (demoEnv (fun _ => 0) (some 9))
      (demoThread (fun _ => some 7) 2) 100).1.trace = false := by
  decide

/-! ## `close` -/

theorem valid_fd_iff (fd : Int) : valid_fd fd = true ↔ 0 ≤ fd ∧ fd ≤ 127 := by
  unfold valid_fd
  by_cases h : fd < 0 ∨ fd > 127
  · simp only [h, not_true_eq_false, if_false, Bool.false_eq_true, false_iff]
    omega
  · simp only [h, not_false_eq_true, if_true, true_iff]
    omega

theorem closes_append (a b : List Event) : closes (a ++ b) = closes a ++ closes b := by
  induction a with
  | nil => rfl
  | cons e es ih => cases e <;> simp [closes, ih]

theorem close_noop (st : Thread) (fd : Int)
    (h : fd < 0 ∨ 127 < fd ∨ st.fd_list fd.toNat = none) :
    close st fd = lock_release (lock_acquire st) := by
  unfold close
  by_cases hv : valid_fd fd = true
  · have hr := (valid_fd_iff fd).mp hv
    have hs : (lock_acquire st).fd_list fd.toNat = none := by
      rcases h with h | h | h
      · omega
      · omega
      · exact h
    simp only [hv, hs]
    simp
  · simp [hv]

theorem close_occupied (st : Thread) (fd : Int) (c : Nat)
    (h0 : 0 ≤ fd) (h1 : fd ≤ 127) (hs : st.fd_list fd.toNat = some c) :
    close st fd =
      lock_release { emit (lock_acquire st) (Event.file_close c) with
        fd_list := setSlot st.fd_list fd.toNat none } := by
  have hv : valid_fd fd = true := (valid_fd_iff fd).mpr ⟨h0, h1⟩
  have hs2 : (lock_acquire st).fd_list fd.toNat = some c := hs
  have hb : 0 ≤ fd ∧ fd < (MAX_FD_VAL : Nat) := by
    simp only [MAX_FD_VAL]; omega
  unfold close
  simp only [hv, hs2]
  simp [fd_store, hb, emit, lock_acquire]

/-- C7: `close fd` with `fd` out of range or on an empty slot leaves the table
as it is and calls nothing but the lock; on an occupied slot it calls
`file_close` once, on the handle of that slot, empties the slot and leaves the
others.  A second `close fd` changes neither the table nor the calls made to
the file system. -/
theorem close_effect (st : Thread) (fd : Int) :
    ((fd < 0 ∨ 127 < fd ∨ st.fd_list fd.toNat = none) →
      (close st fd).fd_list = st.fd_list ∧
      (close st fd).oob_stores = st.oob_stores ∧
      (close st fd).trace = st.trace ++ [Event.lock_acquire, Event.lock_release]) ∧
    (∀ h : Nat, 0 ≤ fd → fd ≤ 127 → st.fd_list fd.toNat = some h →
      (close st fd).fd_list = setSlot st.fd_list fd.toNat none ∧
      (close st fd).oob_stores = st.oob_stores ∧
      (close st fd).trace =
        st.trace ++ [Event.lock_acquire, Event.file_close h, Event.lock_release]) ∧
    (close (close st fd) fd).fd_list = (close st fd).fd_list ∧
    (close (close st fd) fd).oob_stores = (close st fd).oob_stores ∧
    (close (close st fd) fd).trace.filter isFsCall = (close st fd).trace.filter isFsCall := by
  have hno : ∀ s : Thread, (fd < 0 ∨ 127 < fd ∨ s.fd_list fd.toNat = none) →
      (close s fd).fd_list = s.fd_list ∧ (close s fd).oob_stores = s.oob_stores ∧
      (close s fd).trace = s.trace ++ [Event.lock_acquire, Event.lock_release] := by
    intro s h
    rw [close_noop s fd h]
    simp [lock_release, lock_acquire]
  have hocc : ∀ h : Nat, 0 ≤ fd → fd ≤ 127 → st.fd_list fd.toNat = some h →
      (close st fd).fd_list = setSlot st.fd_list fd.toNat none ∧
      (close st fd).oob_stores = st.oob_stores ∧
      (close st fd).trace =
        st.trace ++ [Event.lock_acquire, Event.file_close h, Event.lock_release] := by
    intro h h0 h1 hs
    rw [close_occupied st fd h h0 h1 hs]
    simp [lock_release, lock_acquire, emit]
  refine ⟨hno st, hocc, ?_⟩
  have hsecond : fd < 0 ∨ 127 < fd ∨ (close st fd).fd_list fd.toNat = none := by
    by_cases h0 : fd < 0
    · exact Or.inl h0
    · by_cases h1 : 127 < fd
      · exact Or.inr (Or.inl h1)
      · right; right
        cases hs : st.fd_list fd.toNat with
        | none => rw [(hno st (Or.inr (Or.inr hs))).1, hs]
        | some c =>
          rw [(hocc c (by omega) (by omega) hs).1]
          simp [setSlot]
  obtain ⟨a, b, c⟩ := hno (close st fd) hsecond
  refine ⟨a, b, ?_⟩
  rw [c]
  simp [isFsCall]

/-- C7 at concrete inputs: closing descriptor 5 of a table whose slots all
hold handle 7 empties slot 5 after one `file_close 7`; closing descriptor 200
does nothing. -/
theorem close_effect_witness :
    (close (demoThread (fun _ => some 7) 2) 5).trace =
      [] ++ [Event.lock_acquire, Event.file_close 7, Event.lock_release] ∧
    (close (demoThread (fun _ => some 7) 2) 200).trace =
      [] ++ [Event.lock_acquire, Event.lock_release] :=
  ⟨((close_effect (demoThread (fun _ => some 7) 2) 5).2.1 7 (by decide) (by decide) rfl).2.2,
   ((close_effect (demoThread (fun _ => some 7) 2) 200).1 (Or.inr (Or.inl (by decide)))).2.2⟩

/-! ## `exit` -/

/-- C8, at a failing input: a thread whose slot 2 holds the open handle 7 and
that does not hold the lock calls `exit 0`.  `exit` prints, takes and
releases the lock and reaches `thread_exit`; it calls `file_close` on nothing
and slot 2 still holds the handle. -/
theorem exit_closes_no_descriptor :
    (demoThread (fun j => if j = 2 then some 7 else none) 2).fd_list 2 = some 7 ∧
    (exit (demoThread (fun j => if j = 2 then some 7 else none) 2) 0).trace =
      [Event.printf "main: exit(0)\n", Event.lock_acquire, Event.lock_release,
        Event.thread_exit] ∧
    closes (exit (demoThread (fun j => if j = 2 then some 7 else none) 2) 0).trace = [] ∧
    (exit (demoThread (fun j => if j = 2 then some 7 else none) 2) 0).fd_list 2 = some 7 := by
  decide

/-- For every state and status, `exit` calls `file_close` on nothing and
leaves the descriptor table as it is. -/
theorem exit_never_closes (st : Thread) (status : Int) :
    closes (exit st status).trace = closes st.trace ∧
    (exit st status).fd_list = st.fd_list := by
  unfold exit
  by_cases hp : st.parent.isSome = true ∧ status = 0 <;>
    by_cases hl : st.lock_held = false <;>
    cases hc : st.curr_file <;>
    simp [hp, hl, hc, emit, lock_acquire, lock_release, closes_append, closes]

/-- C9: `exit status` stores `status` in `e_status` and prints the one line
`name: exit(status)`; when the thread has a parent and `status` is 0 the
parent's `child_exited` becomes true and its `child_status` becomes `status`,
and in every other case, so for every nonzero status, the parent is left as
it was. -/
theorem exit_records_status (st : Thread) (status : Int) :
    (exit st status).e_status = status ∧
    (exit st status).trace.filter isPrintf =
      st.trace.filter isPrintf ++
        [Event.printf (st.name ++ ": exit(" ++ toString status ++ ")\n")] ∧
    (∀ p : Parent, st.parent = some p → status = 0 →
      (exit st status).parent = some ⟨true, status⟩) ∧
    (st.parent = none → (exit st status).parent = none) ∧
    (status ≠ 0 → (exit st status).parent = st.parent) := by
  unfold exit
  refine ⟨?_, ?_, ?_, ?_, ?_⟩
  · by_cases hp : st.parent.isSome = true ∧ status = 0 <;>
      by_cases hl : st.lock_held = false <;>
      cases hc : st.curr_file <;>
      simp [hp, hl, hc, emit, lock_acquire, lock_release]
  · by_cases hp : st.parent.isSome = true ∧ status = 0 <;>
      by_cases hl : st.lock_held = false <;>
      cases hc : st.curr_file <;>
      simp [hp, hl, hc, emit, lock_acquire, lock_release, isPrintf]
  · intro p hp hs
    by_cases hl : st.lock_held = false <;>
      cases hc : st.curr_file <;>
      simp [hp, hs, hl, hc, emit, lock_acquire, lock_release]
  · intro hp
    by_cases hl : st.lock_held = false <;>
      cases hc : st.curr_file <;>
      simp [hp, hl, hc, emit, lock_acquire, lock_release]
  · intro hs
    by_cases hl : st.lock_held = false <;>
      cases hc : st.curr_file <;>
      simp [hs, hl, hc, emit, lock_acquire, lock_release]

/-- C9 at concrete inputs: a thread with a parent that exits with status 0
marks the parent, and one that exits with status -1 leaves it alone. -/
theorem exit_records_status_witness :
    (exit { demoThread (fun _ => none) 2 with parent := some ⟨false, 5⟩ } 0).parent =
      some ⟨true, 0⟩ ∧
    (exit { demoThread (fun _ => none) 2 with parent := some ⟨false, 5⟩ } (-1)).parent =
      some ⟨false, 5⟩ ∧
    (exit (demoThread (fun _ => none) 2) 0).parent = none :=
  ⟨(exit_records_status { demoThread (fun _ => none) 2 with parent := some ⟨false, 5⟩ } 0).2.2.1
      ⟨false, 5⟩ rfl rfl,
   (exit_records_status { demoThread (fun _ => none) 2 with parent := some ⟨false, 5⟩ }
      (-1)).2.2.2.2 (by decide),
   (exit_records_status (demoThread (fun _ => none) 2) 0).2.2.2.1 rfl⟩

/-! ## `open` that fails -/

/-- C10: when the path is null or empty, or the file system does not open it,
`open` returns -1; the table, the cursor and the out-of-bounds record are as
before, nothing is closed, and the lock is released.  For a null or empty
path the only calls are the two on the lock; otherwise `filesys_open` is
called once between them. -/
theorem open_failure_changes_nothing (env : Env) (st : Thread) (file : Nat)
    (hfail : file = 0 ∨ env.strlen file = 0 ∨
      env.filesys_open (st.trace ++ [Event.lock_acquire]) file = none) :
    (sys_open env st file).2 = -1 ∧
    (sys_open env st file).1.fd_list = st.fd_list ∧
    (sys_open env st file).1.fd_val = st.fd_val ∧
    (sys_open env st file).1.oob_stores = st.oob_stores ∧
    closes (sys_open env st file).1.trace = closes st.trace ∧
    (sys_open env st file).1.lock_held = false ∧
    ((file = 0 ∨ env.strlen file = 0) →
      (sys_open env st file).1.trace = st.trace ++ [Event.lock_acquire, Event.lock_release]) ∧
    (¬ (file = 0 ∨ env.strlen file = 0) →
      (sys_open env st file).1.trace =
        st.trace ++ [Event.lock_acquire, Event.filesys_open file, Event.lock_release]) := by
  have etr : (lock_acquire st).trace = st.trace ++ [Event.lock_acquire] := rfl
  unfold sys_open
  by_cases h1 : file = 0 ∨ env.strlen file = 0
  · simp only [h1, if_true]
    simp [lock_release, lock_acquire, closes_append, closes]
  · have h2 : env.filesys_open (st.trace ++ [Event.lock_acquire]) file = none := by
      rcases hfail with h | h | h
      · exact absurd (Or.inl h) h1
      · exact absurd (Or.inr h) h1
      · exact h
    simp only [h1, if_false, etr, h2]
    simp [lock_release, lock_acquire, emit, closes_append, closes]

/-- C10 at concrete inputs: a null path, and a path that the file system does
not open, on a full table. -/
theorem open_failure_changes_nothing_witness :
    (sys_open (demoEnv (fun _ => 0) none) (demoThread (fun _ => some 7) 2) 0).2 = -1 ∧
    (sys_open (demoEnv (fun _ => 0) none) (demoThread (fun _ => some 7) 2) 100).1.fd_val = 2 :=
  ⟨(open_failure_changes_nothing (demoEnv (fun _ => 0) none)
      (demoThread (fun _ => some 7) 2) 0 (Or.inl rfl)).1,
   (open_failure_changes_nothing (demoEnv (fun _ => 0) none)
      (demoThread (fun _ => some 7) 2) 100 (Or.inr (Or.inr rfl))).2.2.1⟩

/-! ## The lock on the other paths -/

/-- The lock discipline holds for `create`, `remove`, `filesize`, `read`,
`write`, `seek`, `tell` and `close` in every state that does not hold the
lock: what each of them appends to the history satisfies `lock_ok`, and the
lock is released at the end. -/
theorem lock_discipline_simple_ops (env : Env) (st : Thread) (file buffer size : Nat)
    (fd : Int) :
    (∃ evs, (create env st file size).1.trace = st.trace ++ evs ∧ lock_ok false evs = true ∧
      (create env st file size).1.lock_held = false) ∧
    (∃ evs, (remove env st file).1.trace = st.trace ++ evs ∧ lock_ok false evs = true ∧
      (remove env st file).1.lock_held = false) ∧
    (∃ evs, (filesize env st fd).1.trace = st.trace ++ evs ∧ lock_ok false evs = true ∧
      (filesize env st fd).1.lock_held = false) ∧
    (∃ evs, (read env st fd buffer size).1.trace = st.trace ++ evs ∧ lock_ok false evs = true ∧
      (read env st fd buffer size).1.lock_held = false) ∧
    (∃ evs, (write env st fd buffer size).1.trace = st.trace ++ evs ∧
      lock_ok false evs = true ∧ (write env st fd buffer size).1.lock_held = false) ∧
    (∃ evs, (seek st fd size).trace = st.trace ++ evs ∧ lock_ok false evs = true ∧
      (seek st fd size).lock_held = false) ∧
    (∃ evs, (tell env st fd).1.trace = st.trace ++ evs ∧ lock_ok false evs = true ∧
      (tell env st fd).1.lock_held = false) ∧
    (∃ evs, (close st fd).trace = st.trace ++ evs ∧ lock_ok false evs = true ∧
      (close st fd).lock_held = false) := by
  have hl : (lock_acquire st).fd_list = st.fd_list := rfl
  refine ⟨?_, ?_, ?_, ?_, ?_, ?_, ?_, ?_⟩
  · exact ⟨[Event.lock_acquire, Event.filesys_create file size, Event.lock_release],
      by simp [create, lock_acquire, lock_release, emit], by simp [lock_ok, isFsCall],
      by simp [create, lock_release]⟩
  · exact ⟨[Event.lock_acquire, Event.filesys_remove file, Event.lock_release],
      by simp [remove, lock_acquire, lock_release, emit], by simp [lock_ok, isFsCall],
      by simp [remove, lock_release]⟩
  · unfold filesize
    by_cases hv : valid_fd fd = false
    · exact ⟨[Event.lock_acquire, Event.lock_release],
        by simp [hv, lock_acquire, lock_release], by simp [lock_ok, isFsCall], by simp [hv, lock_release]⟩
    · simp only [hv, if_false, hl]
      cases hs : st.fd_list fd.toNat with
      | none =>
        exact ⟨[Event.lock_acquire, Event.lock_release],
          by simp [lock_acquire, lock_release], by simp [lock_ok, isFsCall], by simp [lock_release]⟩
      | some c =>
        exact ⟨[Event.lock_acquire, Event.file_length c, Event.lock_release],
          by simp [lock_acquire, lock_release, emit], by simp [lock_ok, isFsCall], by simp [lock_release]⟩
  · unfold read
    by_cases hv : valid_fd fd = false
    · exact ⟨[Event.lock_acquire, Event.lock_release],
        by simp [hv, lock_acquire, lock_release], by simp [lock_ok, isFsCall], by simp [hv, lock_release]⟩
    · simp only [hv, if_false, hl]
      by_cases h0 : fd = 0
      · simp only [h0, if_true]
        exact ⟨[Event.lock_acquire, Event.input_getc,
            Event.store_byte buffer (env.input_getc (lock_acquire st).trace % 256),
            Event.lock_release],
          by simp [lock_acquire, lock_release, emit], by simp [lock_ok, isFsCall],
          by simp [lock_release]⟩
      · simp only [h0, if_false]
        cases hs : st.fd_list fd.toNat with
        | none =>
          exact ⟨[Event.lock_acquire, Event.lock_release],
            by simp [lock_acquire, lock_release], by simp [lock_ok, isFsCall], by simp [lock_release]⟩
        | some c =>
          exact ⟨[Event.lock_acquire, Event.file_read c buffer size, Event.lock_release],
            by simp [lock_acquire, lock_release, emit], by simp [lock_ok, isFsCall],
            by simp [lock_release]⟩
  · unfold write
    by_cases hv : valid_fd fd = false
    · exact ⟨[Event.lock_acquire, Event.lock_release],
        by simp [hv, lock_acquire, lock_release], by simp [lock_ok, isFsCall], by simp [hv, lock_release]⟩
    · simp only [hv, if_false, hl]
      by_cases h1 : fd = 1
      · simp only [h1, if_true]
        exact ⟨[Event.lock_acquire, Event.putbuf buffer size, Event.lock_release],
          by simp [lock_acquire, lock_release, emit], by simp [lock_ok, isFsCall],
          by simp [lock_release]⟩
      · simp only [h1, if_false]
        cases hs : st.fd_list fd.toNat with
        | none =>
          exact ⟨[Event.lock_acquire, Event.lock_release],
            by simp [lock_acquire, lock_release], by simp [lock_ok, isFsCall], by simp [lock_release]⟩
        | some c =>
          by_cases hd : env.inode_is_subdir (st.trace ++ [Event.lock_acquire]) c = true
          · exact ⟨[Event.lock_acquire, Event.inode_is_subdir c, Event.lock_release],
              by simp [hd, lock_acquire, lock_release, emit], by simp [lock_ok, isFsCall],
              by simp [hd, lock_release, lock_acquire]⟩
          · exact ⟨[Event.lock_acquire, Event.inode_is_subdir c,
                Event.file_write c buffer size, Event.lock_release],
              by simp [hd, lock_acquire, lock_release, emit], by simp [lock_ok, isFsCall],
              by simp [hd, lock_release, lock_acquire]⟩
  · unfold seek
    by_cases hv : valid_fd fd = false
    · exact ⟨[Event.lock_acquire, Event.lock_release],
        by simp [hv, lock_acquire, lock_release], by simp [lock_ok, isFsCall], by simp [hv, lock_release]⟩
    · simp only [hv, if_false, hl]
      cases hs : st.fd_list fd.toNat with
      | none =>
        exact ⟨[Event.lock_acquire, Event.lock_release],
          by simp [lock_acquire, lock_release], by simp [lock_ok, isFsCall], by simp [lock_release]⟩
      | some c =>
        exact ⟨[Event.lock_acquire, Event.file_seek c size, Event.lock_release],
          by simp [lock_acquire, lock_release, emit], by simp [lock_ok, isFsCall],
          by simp [lock_release]⟩
  · unfold tell
    by_cases hv : valid_fd fd = false
    · exact ⟨[Event.lock_acquire, Event.lock_release],
        by simp [hv, lock_acquire, lock_release], by simp [lock_ok, isFsCall], by simp [hv, lock_release]⟩
    · simp only [hv, if_false, hl]
      cases hs : st.fd_list fd.toNat with
      | none =>
        exact ⟨[Event.lock_acquire, Event.lock_release],
          by simp [lock_acquire, lock_release], by simp [lock_ok, isFsCall], by simp [lock_release]⟩
      | some c =>
        exact ⟨[Event.lock_acquire, Event.file_tell c, Event.lock_release],
          by simp [lock_acquire, lock_release, emit], by simp [lock_ok, isFsCall],
          by simp [lock_release]⟩
  · by_cases h : fd < 0 ∨ 127 < fd ∨ st.fd_list fd.toNat = none
    · rw [close_noop st fd h]
      exact ⟨[Event.lock_acquire, Event.lock_release],
        by simp [lock_acquire, lock_release], by simp [lock_ok, isFsCall], rfl⟩
    · push_neg at h
      cases hs : st.fd_list fd.toNat with
      | none => exact absurd hs h.2.2
      | some c =>
        rw [close_occupied st fd c h.1 h.2.1 hs]
        exact ⟨[Event.lock_acquire, Event.file_close c, Event.lock_release],
          by simp [lock_acquire, lock_release, emit], by simp [lock_ok, isFsCall], rfl⟩

/-! ## The result register -/

/-- C11: when every pointer check of the trap passes, the dispatcher writes
`eax` for EXEC, WAIT, CREATE, REMOVE, OPEN, FILESIZE, READ, WRITE, TELL and
REPORT_MEM_USAGE, with the result of the operation on the decoded argument
words; for SEEK and CLOSE (and for HALT and EXIT, which do not return) the
frame is as it was; for a call number that is not handled the frame and the
thread are as they were and nothing is invoked. -/
theorem handler_writes_result (env : Env) (st : Thread) (f : Frame)
    (hpass : ∀ a, Mark.check a ∈ (syscall_handler env st f).marks → ¬ rejected env a) :
    (env.decode (arg env f.esp 0) = some SysNr.EXEC →
      (syscall_handler env st f).frame =
        { f with eax := u32 (exec env st (u32 (arg env f.esp 1))).2 } ∧
      (syscall_handler env st f).out =
        Outcome.ret (exec env st (u32 (arg env f.esp 1))).1 ()) ∧
    (env.decode (arg env f.esp 0) = some SysNr.WAIT →
      (syscall_handler env st f).frame = { f with eax := u32 (wait env st (arg env f.esp 1)).2 } ∧
      (syscall_handler env st f).out = Outcome.ret (wait env st (arg env f.esp 1)).1 ()) ∧
    (env.decode (arg env f.esp 0) = some SysNr.CREATE →
      (syscall_handler env st f).frame =
        { f with eax := if (create env st (u32 (arg env f.esp 1)) (u32 (arg env f.esp 2))).2
            then 1 else 0 } ∧
      (syscall_handler env st f).out =
        Outcome.ret (create env st (u32 (arg env f.esp 1)) (u32 (arg env f.esp 2))).1 ()) ∧
    (env.decode (arg env f.esp 0) = some SysNr.REMOVE →
      (syscall_handler env st f).frame =
        { f with eax := if (remove env st (u32 (arg env f.esp 1))).2 then 1 else 0 } ∧
      (syscall_handler env st f).out =
        Outcome.ret (remove env st (u32 (arg env f.esp 1))).1 ()) ∧
    (env.decode (arg env f.esp 0) = some SysNr.OPEN →
      (syscall_handler env st f).frame =
        { f with eax := u32 (sys_open env st (u32 (arg env f.esp 1))).2 } ∧
      (syscall_handler env st f).out =
        Outcome.ret (sys_open env st (u32 (arg env f.esp 1))).1 ()) ∧
    (env.decode (arg env f.esp 0) = some SysNr.FILESIZE →
      (syscall_handler env st f).frame =
        { f with eax := u32 (filesize env st (arg env f.esp 1)).2 } ∧
      (syscall_handler env st f).out = Outcome.ret (filesize env st (arg env f.esp 1)).1 ()) ∧
    (env.decode (arg env f.esp 0) = some SysNr.READ →
      (syscall_handler env st f).frame =
        { f with eax := u32 (read env st (arg env f.esp 1) (u32 (arg env f.esp 2))
            (u32 (arg env f.esp 3))).2 } ∧
      (syscall_handler env st f).out =
        Outcome.ret (read env st (arg env f.esp 1) (u32 (arg env f.esp 2))
          (u32 (arg env f.esp 3))).1 ()) ∧
    (env.decode (arg env f.esp 0) = some SysNr.WRITE →
      (syscall_handler env st f).frame =
        { f with eax := u32 (write env st (arg env f.esp 1) (u32 (arg env f.esp 2))
            (u32 (arg env f.esp 3))).2 } ∧
      (syscall_handler env st f).out =
        Outcome.ret (write env st (arg env f.esp 1) (u32 (arg env f.esp 2))
          (u32 (arg env f.esp 3))).1 ()) ∧
    (env.decode (arg env f.esp 0) = some SysNr.TELL →
      (syscall_handler env st f).frame = { f with eax := (tell env st (arg env f.esp 1)).2 } ∧
      (syscall_handler env st f).out = Outcome.ret (tell env st (arg env f.esp 1)).1 ()) ∧
    (env.decode (arg env f.esp 0) = some SysNr.REPORT_MEM_USAGE →
      (syscall_handler env st f).frame = { f with eax := u32 (report_mem_usage st) } ∧
      (syscall_handler env st f).out = Outcome.ret st ()) ∧
    (env.decode (arg env f.esp 0) = some SysNr.SEEK →
      (syscall_handler env st f).frame = f ∧
      (syscall_handler env st f).out =
        Outcome.ret (seek st (arg env f.esp 1) (u32 (arg env f.esp 2))) ()) ∧
    (env.decode (arg env f.esp 0) = some SysNr.CLOSE →
      (syscall_handler env st f).frame = f ∧
      (syscall_handler env st f).out = Outcome.ret (close st (arg env f.esp 1)) ()) ∧
    (env.decode (arg env f.esp 0) = some SysNr.HALT →
      (syscall_handler env st f).frame = f ∧
      (syscall_handler env st f).out = Outcome.halted (halt st)) ∧
    (env.decode (arg env f.esp 0) = some SysNr.EXIT →
      (syscall_handler env st f).frame = f ∧
      (syscall_handler env st f).out = Outcome.exited (exit st (arg env f.esp 1))) ∧
    (env.decode (arg env f.esp 0) = none →
      (syscall_handler env st f).frame = f ∧
      (syscall_handler env st f).out = Outcome.ret st () ∧
      ∀ nr args, Mark.invoke nr args ∉ (syscall_handler env st f).marks) := by
  revert hpass
  unfold syscall_handler
  rw [checked_eq]
  by_cases h0 : rejected env f.esp
  · intro hpass
    simp only [h0, if_true] at hpass
    exact absurd h0 (hpass f.esp (by simp))
  · simp only [h0, if_false]
    cases hd : env.decode (arg env f.esp 0) with
    | none =>
      intro _
      simp
    | some nr =>
      cases nr <;> simp only [checked_eq] <;> (try split_ifs) <;> intro hpass <;>
        first
          | (exfalso
             first
               | exact absurd ‹rejected env _› (hpass _ (by simp))
             )
          | simp

/-- C11 at concrete inputs: a FILESIZE trap for descriptor 5 writes the result
of `filesize` to `eax`, a SEEK trap and a trap with the unknown call number
99 leave the frame as it was. -/
theorem handler_writes_result_witness :
    (syscall_handler (demoEnv (fun a => if a = 3221225216 then 7 else 5) none)
      (demoThread (fun _ => some 7) 2) ⟨3221225216, 77⟩).frame =
      { (⟨3221225216, 77⟩ : Frame) with
        eax := u32 (filesize (demoEnv (fun a => if a = 3221225216 then 7 else 5) none)
          (demoThread (fun _ => some 7) 2)
          (arg (demoEnv (fun a => if a = 3221225216 then 7 else 5) none) 3221225216 1)).2 } ∧
    (syscall_handler (demoEnv (fun a => if a = 3221225216 then 10 else 5) none)
      (demoThread (fun _ => some 7) 2) ⟨3221225216, 77⟩).frame = ⟨3221225216, 77⟩ ∧
    (syscall_handler (demoEnv (fun a => if a = 3221225216 then 99 else 5) none)
      (demoThread (fun _ => some 7) 2) ⟨3221225216, 77⟩).frame = ⟨3221225216, 77⟩ :=
  ⟨((handler_writes_result (demoEnv (fun a => if a = 3221225216 then 7 else 5) none)
      (demoThread (fun _ => some 7) 2) ⟨3221225216, 77⟩
      (by
        have hm : (syscall_handler (demoEnv (fun a => if a = 3221225216 then 7 else 5) none)
            (demoThread (fun _ => some 7) 2) ⟨3221225216, 77⟩).marks =
            [Mark.check 3221225216, Mark.load 3221225216, Mark.check 3221225220,
              Mark.load 3221225220, Mark.invoke SysNr.FILESIZE [5]] := by decide
        intro a ha
        rw [hm] at ha
        simp at ha
        rcases ha with ha | ha <;> subst ha <;> decide)).2.2.2.2.2.1 rfl).1,
   ((handler_writes_result (demoEnv (fun a => if a = 3221225216 then 10 else 5) none)
      (demoThread (fun _ => some 7) 2) ⟨3221225216, 77⟩
      (by
        have hm : (syscall_handler (demoEnv (fun a => if a = 3221225216 then 10 else 5) none)
            (demoThread (fun _ => some 7) 2) ⟨3221225216, 77⟩).marks =
            [Mark.check 3221225216, Mark.load 3221225216, Mark.check 3221225220,
              Mark.check 3221225224, Mark.load 3221225220, Mark.load 3221225224,
              Mark.invoke SysNr.SEEK [5, 5]] := by decide
        intro a ha
        rw [hm] at ha
        simp at ha
        rcases ha with ha | ha | ha <;> subst ha <;> decide)).2.2.2.2.2.2.2.2.2.2.1 rfl).1,
   ((handler_writes_result (demoEnv (fun a => if a = 3221225216 then 99 else 5) none)
      (demoThread (fun _ => some 7) 2) ⟨3221225216, 77⟩
      (by
        have hm : (syscall_handler (demoEnv (fun a => if a = 3221225216 then 99 else 5) none)
            (demoThread (fun _ => some 7) 2) ⟨3221225216, 77⟩).marks =
            [Mark.check 3221225216, Mark.load 3221225216] := by decide
        intro a ha
        rw [hm] at ha
        simp at ha
        subst ha
        decide)).2.2.2.2.2.2.2.2.2.2.2.2.2.2 rfl).1⟩

/-! ## Descriptors that name no file -/

theorem valid_fd_false_iff (fd : Int) : valid_fd fd = false ↔ fd < 0 ∨ 127 < fd := by
  have h := valid_fd_iff fd
  cases hv : valid_fd fd
  · simp only [true_iff]
    by_contra hc
    have : valid_fd fd = true := h.mpr (by omega)
    rw [hv] at this
    exact Bool.noConfusion this
  · simp only [Bool.true_eq_false, false_iff]
    have := h.mp hv
    omega

/-- The state in which an operation finds the slot of `fd`: out of range, or
in range with the content of the slot. -/
theorem slot_cases (st : Thread) (fd : Int)
    (h : fd < 0 ∨ 127 < fd ∨ st.fd_list fd.toNat = none) :
    valid_fd fd = false ∨ (valid_fd fd = true ∧ (lock_acquire st).fd_list fd.toNat = none) := by
  by_cases hv : valid_fd fd = true
  · right
    refine ⟨hv, ?_⟩
    have hr := (valid_fd_iff fd).mp hv
    rcases h with h | h | h
    · omega
    · omega
    · exact h
  · left
    simpa using hv

/-- C12: `valid_fd fd` holds exactly for `0 ≤ fd ≤ 127`.  For an `fd` out of
that range or with an empty slot, `filesize` returns 0, `read` returns 0
unless `fd` is 0, `tell` returns `0xffffffff` and `seek` returns; each of them
only takes and releases the lock, so no collaborator is called and the table
is as it was.  For an `fd` out of range the outcome is the same whatever the
table holds. -/
theorem invalid_fd_is_refused (env : Env) (st : Thread) (fd : Int) (buffer size : Nat) :
    (valid_fd fd = true ↔ 0 ≤ fd ∧ fd ≤ 127) ∧
    ((fd < 0 ∨ 127 < fd ∨ st.fd_list fd.toNat = none) →
      (filesize env st fd).2 = 0 ∧
      (filesize env st fd).1.trace = st.trace ++ [Event.lock_acquire, Event.lock_release] ∧
      (filesize env st fd).1.fd_list = st.fd_list ∧
      (fd ≠ 0 → (read env st fd buffer size).2 = 0 ∧
        (read env st fd buffer size).1.trace =
          st.trace ++ [Event.lock_acquire, Event.lock_release] ∧
        (read env st fd buffer size).1.fd_list = st.fd_list) ∧
      (tell env st fd).2 = 4294967295 ∧
      (tell env st fd).1.trace = st.trace ++ [Event.lock_acquire, Event.lock_release] ∧
      (tell env st fd).1.fd_list = st.fd_list ∧
      (seek st fd size).trace = st.trace ++ [Event.lock_acquire, Event.lock_release] ∧
      (seek st fd size).fd_list = st.fd_list ∧
      (seek st fd size).oob_stores = st.oob_stores) ∧
    ((fd < 0 ∨ 127 < fd) → ∀ t : Nat → Option Nat,
      (filesize env { st with fd_list := t } fd).2 = 0 ∧
      (read env { st with fd_list := t } fd buffer size).2 = 0 ∧
      (tell env { st with fd_list := t } fd).2 = 4294967295 ∧
      (filesize env { st with fd_list := t } fd).1.trace =
        st.trace ++ [Event.lock_acquire, Event.lock_release] ∧
      (read env { st with fd_list := t } fd buffer size).1.trace =
        st.trace ++ [Event.lock_acquire, Event.lock_release] ∧
      (tell env { st with fd_list := t } fd).1.trace =
        st.trace ++ [Event.lock_acquire, Event.lock_release] ∧
      (seek { st with fd_list := t } fd size).trace =
        st.trace ++ [Event.lock_acquire, Event.lock_release]) := by
  refine ⟨valid_fd_iff fd, ?_, ?_⟩
  · intro h
    rcases slot_cases st fd h with hv | ⟨hv, hs⟩
    · refine ⟨?_, ?_, ?_, ?_, ?_, ?_, ?_, ?_, ?_, ?_⟩ <;>
        simp [filesize, read, tell, seek, hv, lock_release, lock_acquire, u32]
    · refine ⟨?_, ?_, ?_, ?_, ?_, ?_, ?_, ?_, ?_, ?_⟩
      · simp only [filesize, hv, hs]; simp
      · simp only [filesize, hv, hs]; simp [lock_release, lock_acquire]
      · simp only [filesize, hv, hs]; simp [lock_release, lock_acquire]
      · intro h0
        simp only [read, hv, hs, h0]
        simp [lock_release, lock_acquire]
      · simp only [tell, hv, hs]; simp [u32]
      · simp only [tell, hv, hs]; simp [lock_release, lock_acquire]
      · simp only [tell, hv, hs]; simp [lock_release, lock_acquire]
      · simp only [seek, hv, hs]; simp [lock_release, lock_acquire]
      · simp only [seek, hv, hs]; simp [lock_release, lock_acquire]
      · simp only [seek, hv, hs]; simp [lock_release, lock_acquire]
  · intro h t
    have hv : valid_fd fd = false := (valid_fd_false_iff fd).mpr h
    refine ⟨?_, ?_, ?_, ?_, ?_, ?_, ?_⟩ <;>
      simp [filesize, read, tell, seek, hv, lock_release, lock_acquire, u32]

/-- C12 at concrete inputs: descriptor 200 is out of range and descriptor 5
of an empty table names no file. -/
theorem invalid_fd_is_refused_witness :
    (filesize (demoEnv (fun _ => 0) none) (demoThread (fun _ => none) 2) 200).2 = 0 ∧
    (tell (demoEnv (fun _ => 0) none) (demoThread (fun _ => none) 2) 5).2 = 4294967295 ∧
    (read (demoEnv (fun _ => 0) none) (demoThread (fun _ => none) 2) 5 1000 10).2 = 0 ∧
    (tell (demoEnv (fun _ => 0) none)
      { demoThread (fun _ => none) 2 with fd_list := fun _ => some 3 } (-1)).2 = 4294967295 :=
  ⟨((invalid_fd_is_refused (demoEnv (fun _ => 0) none) (demoThread (fun _ => none) 2) 200
      1000 10).2.1 (Or.inr (Or.inl (by decide)))).1,
   ((invalid_fd_is_refused (demoEnv (fun _ => 0) none) (demoThread (fun _ => none) 2) 5
      1000 10).2.1 (Or.inr (Or.inr rfl))).2.2.2.2.1,
   (((invalid_fd_is_refused (demoEnv (fun _ => 0) none) (demoThread (fun _ => none) 2) 5
      1000 10).2.1 (Or.inr (Or.inr rfl))).2.2.2.1 (by decide)).1,
   ((invalid_fd_is_refused (demoEnv (fun _ => 0) none) (demoThread (fun _ => none) 2) (-1)
      1000 10).2.2 (Or.inl (by decide)) (fun _ => some 3)).2.2.1⟩

/-! ## `write` and console `read` -/

theorem s32_small (n : Nat) (h : n < 2147483648) : s32 n = (n : Int) := by
  unfold s32
  have h1 : n % 4294967296 = n := Nat.mod_eq_of_lt (by omega)
  rw [h1]
  simp [h]

theorem u32_s32 (n : Nat) (h : n < 4294967296) : u32 (s32 n) = n := by
  unfold u32 s32
  have h1 : n % 4294967296 = n := Nat.mod_eq_of_lt h
  rw [h1]
  by_cases hs : n < 2147483648
  · simp only [hs, if_true]
    omega
  · simp only [hs, if_false]
    omega

/-- C13: `write` returns 0 for an `fd` outside `[0,128)`; for `fd` 1 it calls
`putbuf (buffer, size)` once and returns `size` (as an `int`: `size` itself
below `2^31`, and in every case the 32-bit word `size`); otherwise, when the
slot holds a handle it returns -1 without `file_write` if the inode is a
directory and else the value of `file_write (handle, buffer, size)`; when the
slot is empty it returns 0.  The table is never changed. -/
theorem write_result (env : Env) (st : Thread) (fd : Int) (buffer size : Nat) :
    ((fd < 0 ∨ 127 < fd) →
      (write env st fd buffer size).2 = 0 ∧
      (write env st fd buffer size).1.trace =
        st.trace ++ [Event.lock_acquire, Event.lock_release]) ∧
    (fd = 1 →
      (write env st fd buffer size).2 = s32 size ∧
      (size < 2147483648 → (write env st fd buffer size).2 = (size : Int)) ∧
      (size < 4294967296 → u32 (write env st fd buffer size).2 = size) ∧
      (write env st fd buffer size).1.trace =
        st.trace ++ [Event.lock_acquire, Event.putbuf buffer size, Event.lock_release]) ∧
    (∀ h : Nat, 0 ≤ fd → fd ≤ 127 → fd ≠ 1 → st.fd_list fd.toNat = some h →
      env.inode_is_subdir (st.trace ++ [Event.lock_acquire]) h = true →
      (write env st fd buffer size).2 = -1 ∧
      (write env st fd buffer size).1.trace =
        st.trace ++ [Event.lock_acquire, Event.inode_is_subdir h, Event.lock_release]) ∧
    (∀ h : Nat, 0 ≤ fd → fd ≤ 127 → fd ≠ 1 → st.fd_list fd.toNat = some h →
      env.inode_is_subdir (st.trace ++ [Event.lock_acquire]) h = false →
      (write env st fd buffer size).2 =
        env.file_write (st.trace ++ [Event.lock_acquire, Event.inode_is_subdir h]) h
          buffer size ∧
      (write env st fd buffer size).1.trace =
        st.trace ++ [Event.lock_acquire, Event.inode_is_subdir h,
          Event.file_write h buffer size, Event.lock_release]) ∧
    (0 ≤ fd → fd ≤ 127 → fd ≠ 1 → st.fd_list fd.toNat = none →
      (write env st fd buffer size).2 = 0 ∧
      (write env st fd buffer size).1.trace =
        st.trace ++ [Event.lock_acquire, Event.lock_release]) ∧
    (write env st fd buffer size).1.fd_list = st.fd_list ∧
    (write env st fd buffer size).1.oob_stores = st.oob_stores := by
  have hl : (lock_acquire st).fd_list = st.fd_list := rfl
  have htr : (lock_acquire st).trace = st.trace ++ [Event.lock_acquire] := rfl
  refine ⟨?_, ?_, ?_, ?_, ?_, ?_, ?_⟩
  · intro h
    have hv : valid_fd fd = false := (valid_fd_false_iff fd).mpr h
    simp [write, hv, lock_release, lock_acquire]
  · intro h1
    subst h1
    have hv : valid_fd 1 = true := by decide
    have hr : (write env st 1 buffer size).2 = s32 size := by
      simp [write, hv]
    refine ⟨hr, ?_, ?_, ?_⟩
    · intro hs
      rw [hr, s32_small size hs]
    · intro hs
      rw [hr, u32_s32 size hs]
    · simp [write, hv, lock_release, lock_acquire, emit]
  · intro h h0 h127 h1 hs hd
    have hv : valid_fd fd = true := (valid_fd_iff fd).mpr ⟨h0, h127⟩
    simp only [write, hv, h1, hl, hs, htr, hd]
    simp [lock_release, lock_acquire, emit]
  · intro h h0 h127 h1 hs hd
    have hv : valid_fd fd = true := (valid_fd_iff fd).mpr ⟨h0, h127⟩
    simp only [write, hv, h1, hl, hs, htr, hd]
    simp [lock_release, lock_acquire, emit]
  · intro h0 h127 h1 hs
    have hv : valid_fd fd = true := (valid_fd_iff fd).mpr ⟨h0, h127⟩
    simp only [write, hv, h1, hl, hs]
    simp [lock_release, lock_acquire]
  · unfold write
    by_cases hv : valid_fd fd = false
    · simp [hv, lock_release, lock_acquire]
    · simp only [hv, if_false, hl]
      by_cases h1 : fd = 1
      · simp [h1, lock_release, lock_acquire, emit]
      · simp only [h1, if_false]
        cases hs : st.fd_list fd.toNat with
        | none => simp [lock_release, lock_acquire]
        | some c =>
          by_cases hd : env.inode_is_subdir (st.trace ++ [Event.lock_acquire]) c = true
          · simp [hd, lock_release, lock_acquire, emit]
          · simp [hd, lock_release, lock_acquire, emit]
  · unfold write
    by_cases hv : valid_fd fd = false
    · simp [hv, lock_release, lock_acquire]
    · simp only [hv, if_false, hl]
      by_cases h1 : fd = 1
      · simp [h1, lock_release, lock_acquire, emit]
      · simp only [h1, if_false]
        cases hs : st.fd_list fd.toNat with
        | none => simp [lock_release, lock_acquire]
        | some c =>
          by_cases hd : env.inode_is_subdir (st.trace ++ [Event.lock_acquire]) c = true
          · simp [hd, lock_release, lock_acquire, emit]
          · simp [hd, lock_release, lock_acquire, emit]

/-- C13 at concrete inputs: `write (1, buffer, 5)` returns 5 after one
`putbuf`; `write (200, ...)` returns 0; writing to descriptor 5, which holds a
regular file, returns what `file_write` returns; writing to the empty
descriptor 0 returns 0. -/
theorem write_result_witness :
    (write (demoEnv (fun _ => 0) none) (demoThread (fun _ => none) 2) 1 1000 5).2 = 5 ∧
    (write (demoEnv (fun _ => 0) none) (demoThread (fun _ => none) 2) 200 1000 5).2 = 0 ∧
    (write (demoEnv (fun _ => 0) none) (demoThread (fun _ => some 7) 2) 5 1000 5).1.trace =
      [] ++ [Event.lock_acquire, Event.inode_is_subdir 7, Event.file_write 7 1000 5,
        Event.lock_release] ∧
    (write (demoEnv (fun _ => 0) none) (demoThread (fun _ => none) 2) 0 1000 5).2 = 0 :=
  ⟨((write_result (demoEnv (fun _ => 0) none) (demoThread (fun _ => none) 2) 1 1000 5).2.1
      rfl).2.1 (by decide),
   ((write_result (demoEnv (fun _ => 0) none) (demoThread (fun _ => none) 2) 200 1000 5).1
      (Or.inr (by decide))).1,
   ((write_result (demoEnv (fun _ => 0) none) (demoThread (fun _ => some 7) 2) 5 1000
      5).2.2.2.1 7 (by decide) (by decide) (by decide) rfl rfl).2,
   ((write_result (demoEnv (fun _ => 0) none) (demoThread (fun _ => none) 2) 0 1000
      5).2.2.2.2.1 (by decide) (by decide) (by decide) rfl).1⟩

/-- C14: `read (0, buffer, size)` calls `input_getc` once, stores that byte
at `buffer[0]` and nowhere else, and returns `size` (as an `int`: `size`
itself below `2^31`, and in every case the 32-bit word `size`), also for
`size` 0; it calls no file primitive and leaves the table as it was. -/
theorem read_console (env : Env) (st : Thread) (buffer size : Nat) :
    (read env st 0 buffer size).2 = s32 size ∧
    (size < 2147483648 → (read env st 0 buffer size).2 = (size : Int)) ∧
    (size < 4294967296 → u32 (read env st 0 buffer size).2 = size) ∧
    (read env st 0 buffer size).1.trace =
      st.trace ++ [Event.lock_acquire, Event.input_getc,
        Event.store_byte buffer (env.input_getc (st.trace ++ [Event.lock_acquire]) % 256),
        Event.lock_release] ∧
    (read env st 0 buffer size).1.fd_list = st.fd_list ∧
    (read env st 0 buffer size).1.oob_stores = st.oob_stores ∧
    (read env st 0 buffer size).1.lock_held = false := by
  have hv : valid_fd 0 = true := by decide
  have hr : (read env st 0 buffer size).2 = s32 size := by
    simp [read, hv]
  refine ⟨hr, ?_, ?_, ?_, ?_, ?_, ?_⟩
  · intro hs
    rw [hr, s32_small size hs]
  · intro hs
    rw [hr, u32_s32 size hs]
  · simp [read, hv, lock_release, lock_acquire, emit]
  · simp [read, hv, lock_release, lock_acquire, emit]
  · simp [read, hv, lock_release, lock_acquire, emit]
  · simp [read, hv, lock_release, lock_acquire, emit]

/-- C14 at concrete inputs: a console read of 0 bytes and one of 10 bytes
return 0 and 10. -/
theorem read_console_witness :
    (read (demoEnv (fun _ => 0) none) (demoThread (fun _ => none) 2) 0 1000 0).2 = (0 : Nat) ∧
    u32 (read (demoEnv (fun _ => 0) none) (demoThread (fun _ => none) 2) 0 1000 10).2 = 10 :=
  ⟨(read_console (demoEnv (fun _ => 0) none) (demoThread (fun _ => none) 2) 1000 0).2.1
      (by decide),
   (read_console (demoEnv (fun _ => 0) none) (demoThread (fun _ => none) 2) 1000 10).2.2.1
      (by decide)⟩

/-! ## `exec` and `child_thr` -/

theorem child_thr_empty (env : Env) (st : Thread) (tid_val : Int)
    (h : st.list_of_childs = []) :
    child_thr env st tid_val = (lock_release (lock_acquire st), none) := by
  have hl : (lock_acquire st).list_of_childs = [] := h
  simp [child_thr, hl]

theorem child_thr_found (env : Env) (st : Thread) (tid_val : Int)
    (pre post : List Child) (c : Child)
    (h : st.list_of_childs = pre ++ c :: post) (hc : c.tid = tid_val)
    (hpre : ∀ x ∈ pre, x.tid ≠ tid_val) :
    child_thr env st tid_val = (lock_release (lock_acquire st), some c) := by
  have hl : (lock_acquire st).list_of_childs = pre ++ c :: post := h
  have hne : pre ++ c :: post ≠ [] := by simp
  have hf : (pre ++ c :: post).find? (fun x => decide (tid_val = x.tid)) = some c := by
    rw [List.find?_append]
    have hn : pre.find? (fun x => decide (tid_val = x.tid)) = none := by
      rw [List.find?_eq_none]
      intro x hx
      simpa using fun e => hpre x hx e.symm
    rw [hn]
    simp [List.find?, hc]
  unfold child_thr
  simp only [hl, ne_eq, hne, not_false_eq_true, if_true, hf]

theorem child_thr_missing (env : Env) (st : Thread) (tid_val : Int)
    (hne : st.list_of_childs ≠ []) (hno : ∀ x ∈ st.list_of_childs, x.tid ≠ tid_val) :
    child_thr env st tid_val = (lock_acquire st, env.undef_child) := by
  have hn : (lock_acquire st).list_of_childs.find? (fun x => decide (tid_val = x.tid)) = none := by
    rw [List.find?_eq_none]
    intro x hx
    simpa using fun e => hno x hx e.symm
  have hne2 : (lock_acquire st).list_of_childs ≠ [] := hne
  unfold child_thr
  simp only [ne_eq, hne2, not_false_eq_true, if_true, hn]

/-- C15: for a non-null command line, when `process_execute` answers
`PID_ERROR`, `exec` returns `PID_ERROR` and leaves the child list as
`process_execute` left it.  When it answers another tid and the first child
with that tid is `c`, then with `c.load_error` set `exec` returns -1 and the
child list is the former one without `c`, the others in order, and with
`c.load_error` clear `exec` returns the tid and the child list is as it was. -/
theorem exec_result (env : Env) (st : Thread) (cmd_line : Nat) (hnn : cmd_line ≠ 0) :
    ((env.process_execute st.trace cmd_line st.list_of_childs).1 = env.PID_ERROR →
      (exec env st cmd_line).2 = env.PID_ERROR ∧
      (exec env st cmd_line).1.list_of_childs =
        (env.process_execute st.trace cmd_line st.list_of_childs).2 ∧
      (exec env st cmd_line).1.trace = st.trace ++ [Event.process_execute cmd_line]) ∧
    (∀ (pre post : List Child) (c : Child),
      (env.process_execute st.trace cmd_line st.list_of_childs).1 ≠ env.PID_ERROR →
      (env.process_execute st.trace cmd_line st.list_of_childs).2 = pre ++ c :: post →
      c.tid = (env.process_execute st.trace cmd_line st.list_of_childs).1 →
      (∀ x ∈ pre, x.tid ≠ (env.process_execute st.trace cmd_line st.list_of_childs).1) →
      (c.load_error = true →
        (exec env st cmd_line).2 = -1 ∧
        (exec env st cmd_line).1.list_of_childs = pre ++ post) ∧
      (c.load_error = false →
        (exec env st cmd_line).2 =
          (env.process_execute st.trace cmd_line st.list_of_childs).1 ∧
        (exec env st cmd_line).1.list_of_childs = pre ++ c :: post) ∧
      (exec env st cmd_line).1.lock_held = false) := by
  constructor
  · intro herr
    simp [exec, hnn, herr, emit]
  · intro pre post c hok hlist htid hpre
    have hct := child_thr_found env
      (emit { st with list_of_childs :=
        (env.process_execute st.trace cmd_line st.list_of_childs).2 }
        (Event.process_execute cmd_line))
      (env.process_execute st.trace cmd_line st.list_of_childs).1 pre post c hlist htid hpre
    have hcpre : c ∉ pre := fun hm => hpre c hm htid
    have her : (pre ++ c :: post).erase c = pre ++ post := by
      rw [List.erase_append_right _ hcpre]
      simp
    refine ⟨?_, ?_, ?_⟩
    · intro hle
      unfold exec
      simp only [hnn, if_false, hok, hct, hle, if_true]
      simp [emit, lock_release, lock_acquire, hlist, her]
    · intro hle
      unfold exec
      simp only [hnn, if_false, hok, hct, hle]
      simp [emit, lock_release, lock_acquire, hlist]
    · unfold exec
      simp only [hnn, if_false, hok, hct]
      cases hle : c.load_error <;> simp [emit, lock_release, lock_acquire]

/-- C15 at concrete inputs: `process_execute` answers tid 7 and the child
list `[5, 7, 9]`; when child 7 failed to load `exec` returns -1 and the list
becomes `[5, 9]`, when it loaded `exec` returns 7; when `process_execute`
answers `PID_ERROR` so does `exec`. -/
theorem exec_result_witness :
    (exec (spawnEnv 7 [⟨5, false⟩, ⟨7, true⟩, ⟨9, false⟩]) (demoThread (fun _ => none) 2)
      100).1.list_of_childs = [⟨5, false⟩] ++ [⟨9, false⟩] ∧
    (exec (spawnEnv 7 [⟨5, false⟩, ⟨7, false⟩, ⟨9, false⟩]) (demoThread (fun _ => none) 2)
      100).2 = 7 ∧
    (exec (spawnEnv (-1) []) (demoThread (fun _ => none) 2) 100).2 = -1 :=
  ⟨(((exec_result (spawnEnv 7 [⟨5, false⟩, ⟨7, true⟩, ⟨9, false⟩])
      (demoThread (fun _ => none) 2) 100 (by decide)).2 [⟨5, false⟩] [⟨9, false⟩] ⟨7, true⟩
      (by decide) rfl rfl (by decide)).1 rfl).2,
   (((exec_result (spawnEnv 7 [⟨5, false⟩, ⟨7, false⟩, ⟨9, false⟩])
      (demoThread (fun _ => none) 2) 100 (by decide)).2 [⟨5, false⟩] [⟨9, false⟩] ⟨7, false⟩
      (by decide) rfl rfl (by decide)).2.1 rfl).1,
   ((exec_result (spawnEnv (-1) []) (demoThread (fun _ => none) 2) 100 (by decide)).1 rfl).1⟩

/-- C16: `exec (NULL)` returns -1 and the thread is exactly as before: no
call of `process_execute`, no call on the lock, the same child list. -/
theorem exec_null (env : Env) (st : Thread) :
    exec env st 0 = (st, -1) ∧
    (exec env st 0).1.trace = st.trace ∧
    (exec env st 0).1.lock_held = st.lock_held ∧
    (exec env st 0).1.list_of_childs = st.list_of_childs := by
  simp [exec]

/-- C20, at a failing input: the child list holds one child, of tid 5, and
`child_thr 7` is entered without the lock.  It takes the lock, leaves the
loop without a match and ends without `lock_release` and without `return`:
the lock is still held and the result is whatever the caller happens to see.
`exec` on a `process_execute` that answers tid 7 with that child list then
returns to the dispatcher with the lock held. -/
theorem child_thr_missing_tid_keeps_lock :
    (child_thr (demoEnv (fun _ => 0) none)
      { demoThread (fun _ => none) 2 with list_of_childs := [⟨5, false⟩] } 7).1.lock_held
      = true ∧
    (child_thr (demoEnv (fun _ => 0) none)
      { demoThread (fun _ => none) 2 with list_of_childs := [⟨5, false⟩] } 7).1.trace
      = [Event.lock_acquire] ∧
    (child_thr (demoEnv (fun _ => 0) none)
      { demoThread (fun _ => none) 2 with list_of_childs := [⟨5, false⟩] } 7).2
      = (demoEnv (fun _ => 0) none).undef_child ∧
    (exec (spawnEnv 7 [⟨5, false⟩]) (demoThread (fun _ => none) 2) 100).1.lock_held = true ∧
    (exec (spawnEnv 7 [⟨5, false⟩]) (demoThread (fun _ => none) 2) 100).1.trace =
      [Event.process_execute 100, Event.lock_acquire] ∧
    (syscall_handler
      { spawnEnv 7 [⟨5, false⟩] with mem := fun a => if a = 3221225216 then 2 else 134512640 }
      (demoThread (fun _ => none) 2) ⟨3221225216, 77⟩).out.state.lock_held = true := by
  decide

/-! ## `exit` and the lock, the memory counter -/

/-- C17: what `exit` appends to the history contains `lock_acquire` once
when the thread entered without the lock and not at all when it entered
holding it, and `lock_release` exactly once, after it and with the lock
held; `file_allow_write` runs under the lock; the last event is
`thread_exit`, reached with the lock not held. -/
theorem exit_lock_safe (st : Thread) (status : Int) :
    ∃ evs : List Event, (exit st status).trace = st.trace ++ evs ∧
      evs.count Event.lock_acquire = (if st.lock_held = true then 0 else 1) ∧
      evs.count Event.lock_release = 1 ∧
      lock_ok st.lock_held evs = true ∧
      evs.getLast? = some Event.thread_exit ∧
      (exit st status).lock_held = false := by
  refine ⟨[Event.printf (st.name ++ ": exit(" ++ toString status ++ ")\n")] ++
      (if st.lock_held = true then [] else [Event.lock_acquire]) ++
      (match st.curr_file with
        | some h => [Event.file_allow_write h]
        | none => []) ++
      [Event.lock_release, Event.thread_exit], ?_, ?_, ?_, ?_, ?_, ?_⟩
  all_goals (try unfold exit)
  all_goals
    by_cases hp : st.parent.isSome = true ∧ status = 0 <;>
      cases hl : st.lock_held <;>
      cases hc : st.curr_file <;>
      simp [hp, hl, hc, emit, lock_acquire, lock_release, lock_ok, isFsCall]

/-- C18: `report_mem_usage` is the thread's `used_memory`.  A
REPORT_MEM_USAGE trap whose stack pointer passes the check writes that value
to `eax` and leaves the thread exactly as it was, so a second such trap
right after it writes the same value. -/
theorem report_mem_usage_read_only (env : Env) (st : Thread) (f : Frame) :
    report_mem_usage st = st.used_memory ∧
    (¬ rejected env f.esp → env.decode (arg env f.esp 0) = some SysNr.REPORT_MEM_USAGE →
      (syscall_handler env st f).frame = { f with eax := u32 st.used_memory } ∧
      (syscall_handler env st f).out = Outcome.ret st () ∧
      (syscall_handler env (syscall_handler env st f).out.state
        (syscall_handler env st f).frame).frame.eax = (syscall_handler env st f).frame.eax ∧
      (syscall_handler env (syscall_handler env st f).out.state
        (syscall_handler env st f).frame).out = Outcome.ret st ()) := by
  refine ⟨rfl, ?_⟩
  intro h0 hd
  have h1 : ∀ g : Frame, g.esp = f.esp →
      syscall_handler env st g = ⟨{ g with eax := u32 st.used_memory },
        [Mark.check g.esp, Mark.load (wordAddr g.esp 0),
          Mark.invoke SysNr.REPORT_MEM_USAGE []], Outcome.ret st ()⟩ := by
    intro g hg
    unfold syscall_handler
    rw [checked_eq]
    simp only [hg, h0, if_false, hd]
    simp [report_mem_usage]
  rw [h1 f rfl]
  simp only [Outcome.state]
  rw [h1 ⟨f.esp, u32 st.used_memory⟩ rfl]
  simp

/-- C18 at a concrete input: a REPORT_MEM_USAGE trap of a thread whose counter
is 4096 writes 4096 to `eax`. -/
theorem report_mem_usage_read_only_witness :
    (syscall_handler (demoEnv (fun _ => 20) none)
      { demoThread (fun _ => none) 2 with used_memory := 4096 } ⟨3221225216, 77⟩).frame =
      ⟨3221225216, 4096⟩ :=
  ((report_mem_usage_read_only (demoEnv (fun _ => 20) none)
    { demoThread (fun _ => none) 2 with used_memory := 4096 } ⟨3221225216, 77⟩).2
    (by decide) rfl).1

/-! ## The reserved slots -/

theorem close_slot (st : Thread) (fd : Int) (j : Nat) :
    (close st fd).fd_list j = st.fd_list j ∨ (close st fd).fd_list j = none := by
  by_cases h : fd < 0 ∨ 127 < fd ∨ st.fd_list fd.toNat = none
  · left
    rw [close_noop st fd h]
    rfl
  · push_neg at h
    cases hs : st.fd_list fd.toNat with
    | none => exact absurd hs h.2.2
    | some c =>
      rw [close_occupied st fd c h.1 h.2.1 hs]
      by_cases hj : j = fd.toNat
      · right
        simp [lock_release, setSlot, hj]
      · left
        simp [lock_release, setSlot, hj]

theorem read_fd_list (env : Env) (st : Thread) (fd : Int) (buffer size : Nat) :
    (read env st fd buffer size).1.fd_list = st.fd_list := by
  have hl : (lock_acquire st).fd_list = st.fd_list := rfl
  unfold read
  by_cases hv : valid_fd fd = false
  · simp [hv, lock_release, lock_acquire]
  · simp only [hv, if_false, hl]
    by_cases h0 : fd = 0
    · simp [h0, lock_release, lock_acquire, emit]
    · simp only [h0, if_false]
      cases hs : st.fd_list fd.toNat <;> simp [lock_release, lock_acquire, emit]

theorem write_fd_list (env : Env) (st : Thread) (fd : Int) (buffer size : Nat) :
    (write env st fd buffer size).1.fd_list = st.fd_list := by
  have hl : (lock_acquire st).fd_list = st.fd_list := rfl
  unfold write
  by_cases hv : valid_fd fd = false
  · simp [hv, lock_release, lock_acquire]
  · simp only [hv, if_false, hl]
    by_cases h1 : fd = 1
    · simp [h1, lock_release, lock_acquire, emit]
    · simp only [h1, if_false]
      cases hs : st.fd_list fd.toNat with
      | none => simp [lock_release, lock_acquire]
      | some c =>
        by_cases hd : env.inode_is_subdir (st.trace ++ [Event.lock_acquire]) c = true
        · simp [hd, lock_release, lock_acquire, emit]
        · simp [hd, lock_release, lock_acquire, emit]

theorem seek_fd_list (st : Thread) (fd : Int) (position : Nat) :
    (seek st fd position).fd_list = st.fd_list := by
  have hl : (lock_acquire st).fd_list = st.fd_list := rfl
  unfold seek
  by_cases hv : valid_fd fd = false
  · simp [hv, lock_release, lock_acquire]
  · simp only [hv, if_false, hl]
    cases hs : st.fd_list fd.toNat <;> simp [lock_release, lock_acquire, emit]

theorem tell_fd_list (env : Env) (st : Thread) (fd : Int) :
    (tell env st fd).1.fd_list = st.fd_list := by
  have hl : (lock_acquire st).fd_list = st.fd_list := rfl
  unfold tell
  by_cases hv : valid_fd fd = false
  · simp [hv, lock_release, lock_acquire]
  · simp only [hv, if_false, hl]
    cases hs : st.fd_list fd.toNat <;> simp [lock_release, lock_acquire, emit]

theorem filesize_fd_list (env : Env) (st : Thread) (fd : Int) :
    (filesize env st fd).1.fd_list = st.fd_list := by
  have hl : (lock_acquire st).fd_list = st.fd_list := rfl
  unfold filesize
  by_cases hv : valid_fd fd = false
  · simp [hv, lock_release, lock_acquire]
  · simp only [hv, if_false, hl]
    cases hs : st.fd_list fd.toNat <;> simp [lock_release, lock_acquire, emit]

/-- After `open`, a slot holds what it held, or nothing, or, for a slot of
`[2,128)`, the handle that `filesys_open` just returned. -/
theorem sys_open_slot (env : Env) (st : Thread) (file : Nat) (j : Nat) :
    (sys_open env st file).1.fd_list j = st.fd_list j ∨
    (sys_open env st file).1.fd_list j = none ∨
    (2 ≤ j ∧ j < 128 ∧ (sys_open env st file).1.fd_list j =
      env.filesys_open (st.trace ++ [Event.lock_acquire]) file) := by
  have etr : (lock_acquire st).trace = st.trace ++ [Event.lock_acquire] := rfl
  unfold sys_open
  by_cases h1 : file = 0 ∨ env.strlen file = 0
  · left
    simp only [h1, if_true]
    rfl
  · simp only [h1, if_false, etr]
    cases ho : env.filesys_open (st.trace ++ [Event.lock_acquire]) file with
    | none =>
      left
      rfl
    | some h =>
      simp only []
      rcases get_fd_cases st with ⟨hm, _⟩ | ⟨k, hk, k2, k128, _, _⟩
      · have e : get_fd (lock_acquire st) = -1 := hm
        simp only [e, if_true]
        have hoob : ¬ ((0 : Int) ≤ -1 ∧ (-1 : Int) < (MAX_FD_VAL : Nat)) := by
          intro hh
          exact absurd hh.1 (by decide)
        have hcl := close_slot (emit (lock_acquire st) (Event.filesys_open file)) st.fd_val j
        have hsame : (emit (lock_acquire st) (Event.filesys_open file)).fd_list j
            = st.fd_list j := rfl
        rw [hsame] at hcl
        have hfv : (emit (lock_acquire st) (Event.filesys_open file)).fd_val = st.fd_val := rfl
        rw [hfv]
        rcases hcl with hcl | hcl
        · left
          split_ifs <;> simpa [lock_release, fd_store, hoob] using hcl
        · right; left
          split_ifs <;> simpa [lock_release, fd_store, hoob] using hcl
      · have e : get_fd (lock_acquire st) = (k : Int) := hk
        have hne : ¬ ((k : Int) = -1) := by omega
        have hin : (0 : Int) ≤ k ∧ (k : Int) < (MAX_FD_VAL : Nat) := by
          simp only [MAX_FD_VAL]; omega
        simp only [e, hne, if_false]
        by_cases hj : j = k
        · right; right
          subst hj
          refine ⟨k2, k128, ?_⟩
          simp [lock_release, fd_store, hin, setSlot]
        · left
          simp [lock_release, fd_store, hin, setSlot, hj, emit, lock_acquire]

theorem run_op_slot (env : Env) (st : Thread) (op : FdOp) (j : Nat) :
    (run_op env st op).fd_list j = st.fd_list j ∨
    (run_op env st op).fd_list j = none ∨
    (2 ≤ j ∧ j < 128 ∧ ∃ file, op = FdOp.open file ∧
      (run_op env st op).fd_list j =
        env.filesys_open (st.trace ++ [Event.lock_acquire]) file) := by
  cases op with
  | «open» file =>
    rcases sys_open_slot env st file j with h | h | ⟨a, b, c⟩
    · exact Or.inl h
    · exact Or.inr (Or.inl h)
    · exact Or.inr (Or.inr ⟨a, b, file, rfl, c⟩)
  | close fd =>
    rcases close_slot st fd j with h | h
    · exact Or.inl h
    · exact Or.inr (Or.inl h)
  | read fd buffer size => exact Or.inl (by simp [run_op, read_fd_list])
  | write fd buffer size => exact Or.inl (by simp [run_op, write_fd_list])
  | seek fd position => exact Or.inl (by simp [run_op, seek_fd_list])
  | tell fd => exact Or.inl (by simp [run_op, tell_fd_list])
  | filesize fd => exact Or.inl (by simp [run_op, filesize_fd_list])

theorem run_ops_low_slot (env : Env) (j : Nat) (hj : j < 2) :
    ∀ (ops : List FdOp) (st : Thread), st.fd_list j = none →
      (run_ops env st ops).fd_list j = none := by
  intro ops
  induction ops with
  | nil => intro st h; exact h
  | cons op ops ih =>
    intro st h
    apply ih
    rcases run_op_slot env st op j with h1 | h1 | ⟨h2, _⟩
    · rw [h1, h]
    · exact h1
    · omega

/-- C19: from a table whose slots 0 and 1 are empty, every run of `open`,
`close`, `read`, `write`, `seek`, `tell` and `filesize` calls leaves slots 0
and 1 empty.  One call never puts a handle in slot 0 or 1, and after it every
slot holds what it held before, or nothing, or (slots of `[2,128)`, after
`open`) the one handle that `filesys_open` just returned. -/
theorem reserved_slots_stay_empty (env : Env) (st : Thread) (ops : List FdOp) :
    (st.fd_list 0 = none → st.fd_list 1 = none →
      (run_ops env st ops).fd_list 0 = none ∧ (run_ops env st ops).fd_list 1 = none) ∧
    (∀ (op : FdOp) (j : Nat), j < 2 →
      (run_op env st op).fd_list j = st.fd_list j ∨ (run_op env st op).fd_list j = none) ∧
    (∀ (op : FdOp) (j : Nat),
      (run_op env st op).fd_list j = st.fd_list j ∨
      (run_op env st op).fd_list j = none ∨
      (2 ≤ j ∧ j < 128 ∧ ∃ file, op = FdOp.open file ∧
        (run_op env st op).fd_list j =
          env.filesys_open (st.trace ++ [Event.lock_acquire]) file)) := by
  refine ⟨?_, ?_, ?_⟩
  · intro h0 h1
    exact ⟨run_ops_low_slot env 0 (by decide) ops st h0,
      run_ops_low_slot env 1 (by decide) ops st h1⟩
  · intro op j hj
    rcases run_op_slot env st op j with h | h | ⟨h2, _⟩
    · exact Or.inl h
    · exact Or.inr h
    · omega
  · intro op j
    exact run_op_slot env st op j

/-- C19 at a concrete input: on a table that is full from slot 2 upwards, an
`open` (which takes the displacement path), a `close 0`, a `write` to
descriptor 1 and a second `open` leave slots 0 and 1 empty. -/
theorem reserved_slots_stay_empty_witness :
    (run_ops (demoEnv (fun _ => 0) (some 9))
      (demoThread (fun j => if j < 2 then none else some 7) 2)
      [FdOp.open 100, FdOp.close 0, FdOp.write 1 1000 5, FdOp.open 101]).fd_list 0 = none ∧
    (run_ops (demoEnv (fun _ => 0) (some 9))
      (demoThread (fun j => if j < 2 then none else some 7) 2)
      [FdOp.open 100, FdOp.close 0, FdOp.write 1 1000 5, FdOp.open 101]).fd_list 1 = none :=
  (reserved_slots_stay_empty (demoEnv (fun _ => 0) (some 9))
    (demoThread (fun j => if j < 2 then none else some 7) 2)
    [FdOp.open 100, FdOp.close 0, FdOp.write 1 1000 5, FdOp.open 101]).1 rfl rfl

end Syscall
